import Mathlib

/-!
# VersaJS core semantics: a shallow embedding

This file embeds the parts of the VersaJS implementation that the claims
C1 - C10 are about:

* the runtime value model and its binary operators (addition,
  multiplication, division, modulo, power, equality).  The implementation
  files `values.js` and `interpreter.js` are not part of the provided
  sources; only their test suite (`src/unnamed/part_003`) is.  The
  operator definitions below are therefore modelled from the
  specification (section 4.4 of the spec) and, where the spec is silent or
  ambiguous, pinned to the concrete expectations asserted by the test
  suite in `src/unnamed/part_003`.  Every such definition carries a doc
  comment starting with `Modelled from the spec:`.
* the scope chain (`src/v2/symbol_table.js`), embedded faithfully; a JS
  `Map` is modelled as an insertion-ordered association list.
* the two recursive-descent parsers (`src/unnamed/part_001` and
  `src/unnamed/part_002`), embedded faithfully as fuel-indexed functions
  over a token list.  Source-span bookkeeping (`pos_start` / `pos_end`)
  is dropped: it only feeds error messages, which are likewise dropped
  (errors are represented by a bare `invalidSyntax` tag).

Numbers: the host language stores numbers as IEEE doubles.  The model
uses exact rationals; all the behaviour the claims exercise (integer
arithmetic, zero tests, None coercions, dispatch across value kinds) is
unaffected by this choice.  Exponentiation is modelled for integer
exponents only, the only case the spec and the tests exhibit.
-/

namespace VersaJS

/-- Runtime values.  Modelled from the spec: the tagged union of section 3
(`values.js` is absent from the sources).  The Function, Class, Instance
and Enum variants are not needed by any claim and are left out of the
model. -/
inductive Value where
  | number (n : ℚ)
  | str (s : String)
  | list (elems : List Value)
  | dict (entries : List (String × Value))
  | none

/-- Kinds of runtime errors the modelled operators can raise.  The spec
names the DivisionByZero kind explicitly; every other operator failure
(section 7: invalid operand kinds for an operator) is collapsed into
`illegalOperation`. -/
inductive RTErrorKind where
  | divisionByZero
  | illegalOperation

/-- Lookup in an insertion-ordered association list (JS `Map.get`). -/
def mapGet (entries : List (String × Value)) (k : String) : Option Value :=
  match entries with
  | [] => Option.none
  | (k2, v) :: rest => if k2 = k then some v else mapGet rest k

/-- Update-or-append in an insertion-ordered association list
(JS `Map.set`: an existing key keeps its position, a new key is appended
at the end). -/
def mapSet (entries : List (String × Value)) (k : String) (v : Value) :
    List (String × Value) :=
  match entries with
  | [] => [(k, v)]
  | (k2, w) :: rest => if k2 = k then (k, v) :: rest else (k2, w) :: mapSet rest k v

/-- Remove a key from an association list (JS `Map.delete`). -/
def mapDelete (entries : List (String × Value)) (k : String) :
    List (String × Value) :=
  match entries with
  | [] => []
  | (k2, w) :: rest => if k2 = k then rest else (k2, w) :: mapDelete rest k

/-- String rendering of a number.  Modelled from the spec: string
concatenation uses each value's string conversion.  Integral numbers
render as their integer digits; the decimal rendering of non-integral
doubles is outside the rational model and is rendered as num/den. -/
def numToString (q : ℚ) : String :=
  if q.den = 1 then toString q.num else toString q.num ++ "/" ++ toString q.den

/-- Parse a decimal integer literal, the numeric-string recognition used
by equality coercion.  Modelled from the spec: a String convertible to a
Number compares numerically; recognition is modelled for (optionally
negated) integer literals, the only case the spec and tests exhibit. -/
def natFromDigits (acc : Nat) : List Char → Option Nat
  | [] => some acc
  | c :: rest =>
    if c.isDigit then natFromDigits (acc * 10 + (c.toNat - 48)) rest
    else Option.none

/-- Numeric conversion of a string, `Option.none` when the string is not
numeric. -/
def strToNum (s : String) : Option ℚ :=
  match s.data with
  | [] => Option.none
  | '-' :: rest =>
    match rest with
    | [] => Option.none
    | l => (natFromDigits 0 l).map (fun n => -(n : ℚ))
  | l => (natFromDigits 0 l).map (fun n => (n : ℚ))

/-- Dictionary merge, right operand wins on key collision (JS `Map.set`
over the left entries).  Modelled from the spec: Dictionary+Dictionary
merges keys (right operand wins on collision). -/
def dictMerge (a b : List (String × Value)) : List (String × Value) :=
  match b with
  | [] => a
  | (k, v) :: rest => dictMerge (mapSet a k v) rest

/-- Addition.  Modelled from the spec (section 4.4) with the dispatch
order pinned by the interpreter test suite (`src/unnamed/part_003`,
AddNode tests): a List operand absorbs the other operand as a new
trailing element even when that operand is None or a String
(`[0] + none == [0, none]`, `"string" + [0] == [0, "string"]`); a
Dictionary meeting a List always ends up as the trailing element; None is
the additive identity only for Numbers and Strings; `none + none` is
Number 0. -/
def add : Value → Value → Except RTErrorKind Value
  | .number x, .number y => .ok (.number (x + y))
  | .none, .none => .ok (.number 0)
  | .list l, .list m => .ok (.list (l ++ m))
  | .dict d, .dict e => .ok (.dict (dictMerge d e))
  | .list l, .dict d => .ok (.list (l ++ [.dict d]))
  | .dict d, .list l => .ok (.list (l ++ [.dict d]))
  | .list l, x => .ok (.list (l ++ [x]))
  | x, .list l => .ok (.list (l ++ [x]))
  | .str s, .none => .ok (.str s)
  | .none, .str s => .ok (.str s)
  | .number n, .none => .ok (.number n)
  | .none, .number n => .ok (.number n)
  | .str a, .str b => .ok (.str (a ++ b))
  | .str a, .number n => .ok (.str (a ++ numToString n))
  | .number n, .str b => .ok (.str (numToString n ++ b))
  | .dict _, _ => .error .illegalOperation
  | _, .dict _ => .error .illegalOperation

/-- Repetition count of a number used by string/list repetition: defined
for non-negative integral numbers. -/
def repCount (n : ℚ) : Option Nat :=
  if n.den = 1 ∧ 0 ≤ n.num then some n.num.toNat else Option.none

/-- Multiplication.  Modelled from the spec (Number*Number arithmetic,
String*Number repeats the string, List*Number repeats the list's
elements); a None operand behaves as the number zero, as pinned by the
MultiplyNode tests (`10 * none == 0`, `none * 10 == 0`,
`none * none == 0`). -/
def multiply : Value → Value → Except RTErrorKind Value
  | .number x, .number y => .ok (.number (x * y))
  | .none, .none => .ok (.number 0)
  | .number _, .none => .ok (.number 0)
  | .none, .number _ => .ok (.number 0)
  | .str s, .number n =>
    match repCount n with
    | some k => .ok (.str (String.join (List.replicate k s)))
    | Option.none => .error .illegalOperation
  | .number n, .str s =>
    match repCount n with
    | some k => .ok (.str (String.join (List.replicate k s)))
    | Option.none => .error .illegalOperation
  | .list l, .number n =>
    match repCount n with
    | some k => .ok (.list (List.flatten (List.replicate k l)))
    | Option.none => .error .illegalOperation
  | .number n, .list l =>
    match repCount n with
    | some k => .ok (.list (List.flatten (List.replicate k l)))
    | Option.none => .error .illegalOperation
  | _, _ => .error .illegalOperation

/-- Division.  Modelled from the spec: division by None or by zero fails
with a DivisionByZero-kind RuntimeError; both operands must be numbers;
any other operand kind is an illegal operation. -/
def divide : Value → Value → Except RTErrorKind Value
  | .number a, .number b =>
    if b = 0 then .error .divisionByZero else .ok (.number (a / b))
  | .number _, .none => .error .divisionByZero
  | .none, .number _ => .error .divisionByZero
  | .none, .none => .error .divisionByZero
  | _, _ => .error .illegalOperation

/-- Truncation toward zero, the rounding of the host language's `%`. -/
def ratTrunc (q : ℚ) : ℤ :=
  if 0 ≤ q then q.floor else -((-q).floor)

/-- Remainder with the sign convention of the host language (truncated
division). -/
def jsMod (a b : ℚ) : ℚ :=
  a - b * (ratTrunc (a / b) : ℚ)

/-- Modulo.  Modelled from the spec: same error behaviour as division
(None or zero divisor or dividend of kind None is a DivisionByZero-kind
RuntimeError; both operands must be numbers). -/
def modulo : Value → Value → Except RTErrorKind Value
  | .number a, .number b =>
    if b = 0 then .error .divisionByZero else .ok (.number (jsMod a b))
  | .number _, .none => .error .divisionByZero
  | .none, .number _ => .error .divisionByZero
  | .none, .none => .error .divisionByZero
  | _, _ => .error .illegalOperation

/-- Integer-exponent power on rationals. -/
def ratPow (a : ℚ) (z : ℤ) : ℚ :=
  if 0 ≤ z then a ^ z.toNat else (a ^ (-z).toNat)⁻¹

/-- Element-wise distribution of the power operator over a list: each
element (which must be a Number) is raised to the given exponent.
Modelled from the spec and pinned by the PowerNode tests, which assert
`[5, 10] ^ 2 == [25, 100]` and `2 ^ [5, 10] == [25, 100]`: in both
orders, the list elements are the bases and the Number operand is the
exponent. -/
def powList (z : ℤ) : List Value → Except RTErrorKind (List Value)
  | [] => .ok []
  | .number x :: rest =>
    match powList z rest with
    | .ok l => .ok (.number (ratPow x z) :: l)
    | .error e => .error e
  | _ :: _ => .error .illegalOperation

/-- Power.  Modelled from the spec: an operand of kind None (base or
exponent) yields Number 1; two Numbers are standard exponentiation
(modelled for integer exponents); a List operand on either side
distributes element-wise with the Number operand as exponent. -/
def power : Value → Value → Except RTErrorKind Value
  | .none, _ => .ok (.number 1)
  | _, .none => .ok (.number 1)
  | .number a, .number b =>
    if b.den = 1 then .ok (.number (ratPow a b.num)) else .error .illegalOperation
  | .list l, .number b =>
    if b.den = 1 then
      match powList b.num l with
      | .ok m => .ok (.list m)
      | .error e => .error e
    else .error .illegalOperation
  | .number a, .list l =>
    if a.den = 1 then
      match powList a.num l with
      | .ok m => .ok (.list m)
      | .error e => .error e
    else .error .illegalOperation
  | _, _ => .error .illegalOperation

/-- Keys of a dictionary, in insertion order. -/
def keyList (entries : List (String × Value)) : List String :=
  entries.map Prod.fst

/-- Key-set comparison of two dictionaries: every key of each is a key of
the other. -/
def sameKeySet (a b : List (String × Value)) : Bool :=
  a.all (fun p => (mapGet b p.1).isSome) && b.all (fun p => (mapGet a p.1).isSome)

mutual

/-- Equality.  Modelled from the spec: deep/structural for List
(pairwise element equality) and Dictionary (key-set and values);
value-based for Number/String with numeric coercion of numeric strings
(`"5" == 5` is true, `"str" == 5` is false); None equals itself and the
numeric zero and nothing else (`"str" == none` is false). -/
def eqValue : Value → Value → Bool
  | .number a, .number b => a == b
  | .str a, .str b => a == b
  | .str s, .number n =>
    match strToNum s with
    | some q => q == n
    | Option.none => false
  | .number n, .str s =>
    match strToNum s with
    | some q => q == n
    | Option.none => false
  | .none, .none => true
  | .none, .number n => n == 0
  | .number n, .none => n == 0
  | .list a, .list b => a.length == b.length && eqListPairwise a b
  | .dict a, .dict b => sameKeySet a b && eqDictValues a b
  | _, _ => false

/-- Pairwise element equality of two lists (used once the lengths are
known to agree). -/
def eqListPairwise : List Value → List Value → Bool
  | [], _ => true
  | _, [] => true
  | x :: xs, y :: ys => eqValue x y && eqListPairwise xs ys

/-- Each entry of the first dictionary has an equal value under the same
key in the second. -/
def eqDictValues : List (String × Value) → List (String × Value) → Bool
  | [], _ => true
  | (k, v) :: rest, b =>
    (match mapGet b k with
     | some w => eqValue v w
     | Option.none => false) && eqDictValues rest b

end

/-- Result of the `==` operator: Number 1 for true, Number 0 for false.
Modelled from the spec and the EqualsNode tests. -/
def equals (a b : Value) : Value :=
  .number (if eqValue a b then 1 else 0)

/-!
## The scope chain

Faithful embedding of `src/v2/symbol_table.js`.  A `SymbolTable` owns a
local map (`symbols`, a JS `Map` modelled as an insertion-ordered
association list) and an optional parent; the two constructors `root`
and `child` play the role of `parent === null` and `parent !== null`.
-/

/-- The scope chain of `src/v2/symbol_table.js`. -/
inductive SymbolTable where
  | root (symbols : List (String × Value))
  | child (symbols : List (String × Value)) (parent : SymbolTable)

namespace SymbolTable

/-- The local map of a table. -/
def symbols : SymbolTable → List (String × Value)
  | root s => s
  | child s _ => s

/-- Checks if a variable already exists: `doesExist` consults only the
local map (`this.symbols.has(var_name)`). -/
def doesExist (st : SymbolTable) (var_name : String) : Bool :=
  (mapGet st.symbols var_name).isSome

/-- Gets a variable: the local map first, else the parent chain, else
null (modelled as `Option.none`). -/
def get : SymbolTable → String → Option Value
  | root syms, name => mapGet syms name
  | child syms p, name =>
    match mapGet syms name with
    | some v => some v
    | Option.none => p.get name

/-- Modifies the value of a variable: writes the table's own local map
(`this.symbols.set(name, value)`), never a parent's. -/
def set : SymbolTable → String → Value → SymbolTable
  | root syms, name, value => root (mapSet syms name value)
  | child syms p, name, value => child (mapSet syms name value) p

/-- Removes a variable from the local map. -/
def remove : SymbolTable → String → SymbolTable
  | root syms, name => root (mapDelete syms name)
  | child syms p, name => child (mapDelete syms name) p

/-- The maps of the strict ancestors of a table, nearest first. -/
def parentMaps : SymbolTable → List (List (String × Value))
  | root _ => []
  | child _ p => p.symbols :: p.parentMaps

end SymbolTable

/-- The reserved constants of `src/v2/symbol_table.js` (`CONSTANTS`), in
declaration order.  `NumberValue.none` / `yes` / `no` come from the
absent `values.js`; per the spec (section 6) they are the None value,
Number 1 and Number 0. -/
def CONSTANTS : List (String × Value) :=
  [("none", .none), ("null", .none),
   ("yes", .number 1), ("true", .number 1),
   ("no", .number 0), ("false", .number 0)]

/-- The keys of `CONSTANTS` (`Object.keys(CONSTANTS)`). -/
def CONSTANTS_keys : List String :=
  CONSTANTS.map Prod.fst

/-- The pre-populated root scope (`global_symbol_table` seeded with the
constants). -/
def global_symbol_table : SymbolTable :=
  CONSTANTS.foldl (fun st p => st.set p.1 p.2) (SymbolTable.root [])

/-- Membership helper of `miscellaneous.js` (`is_in`). -/
def is_in (x : String) (l : List String) : Bool :=
  l.contains x

end VersaJS

namespace VersaJS

/-!
## Tokens and AST nodes

`tokens.js` and `nodes.js` are not among the provided sources; the token
kind inventory and the node constructors below are taken from how the two
parsers (`src/unnamed/part_001`, `src/unnamed/part_002`) reference them.
A token value is a number, a string (for STRING/IDENTIFIER/KEYWORD
tokens) or null; node constructors store the payloads the parsers store
(minus source spans).
-/

/-- Token kinds referenced by the parsers. -/
inductive TokenType where
  | NUMBER | STRING | IDENTIFIER | KEYWORD
  | NEWLINE | SEMICOLON | COLON | COMMA | DOT | QMARK
  | LPAREN | RPAREN | LSQUARE | RSQUARE | LBRACK | RBRACK
  | EQUALS | DOUBLE_EQUALS | NOT_EQUAL | ELSE_ASSIGN
  | LT | GT | LTE | GTE
  | PLUS | MINUS | MULTIPLY | DIVIDE | POWER | MODULO
  | INC | DEC | ARROW | DOUBLE_ARROW
  | EOF
  deriving DecidableEq

/-- Payload of a token. -/
inductive TokenValue where
  | num (q : ℚ)
  | str (s : String)
  | null
  deriving DecidableEq

/-- A positioned token, minus the position. -/
structure Token where
  type : TokenType
  value : TokenValue
  deriving DecidableEq

/-- Token.matches(type, value) of `tokens.js`. -/
def Token.matchesKw (t : Token) (tt : TokenType) (v : String) : Bool :=
  t.type = tt ∧ t.value = .str v

/-- The string payload of a token (IDENTIFIER/STRING/KEYWORD tokens). -/
def Token.strValue (t : Token) : String :=
  match t.value with
  | .str s => s
  | _ => ""

/-- The numeric payload of a token (NUMBER tokens). -/
def Token.numValue (t : Token) : ℚ :=
  match t.value with
  | .num q => q
  | _ => 0

/-- AST nodes, the union of the node constructors referenced by both
parsers (source spans dropped).  `ListNode` doubles as the
several-statements block node, exactly as in the source.  Where the two
parsers construct the same node kind with different payloads
(`ListPushBracketsNode` stores the list variable token in part_001 and
only positions in part_002; `ListAccessNode` stores the variable token in
part_001 and a full node in part_002) the payload is an `Option` /
wrapped node, documented at the parser sites. -/
inductive Node where
  | NumberNode (n : ℚ)
  | StringNode (s : String)
  | ListNode (elements : List Node)
  | DictionnaryNode (elements : List Node)
  | DictionnaryElementNode (key value : Node)
  | VarAssignNode (name : String) (value : Node)
  | VarModifyNode (name : String) (value : Node)
  | VarAccessNode (name : String)
  | DefineNode (name : String) (value : Node)
  | DeleteNode (node : Node)
  | AddNode (a b : Node)
  | SubtractNode (a b : Node)
  | MultiplyNode (a b : Node)
  | DivideNode (a b : Node)
  | PowerNode (a b : Node)
  | ModuloNode (a b : Node)
  | PlusNode (a : Node)
  | MinusNode (a : Node)
  | NotNode (a : Node)
  | AndNode (a b : Node)
  | OrNode (a b : Node)
  | EqualsNode (a b : Node)
  | NotEqualsNode (a b : Node)
  | LessThanNode (a b : Node)
  | GreaterThanNode (a b : Node)
  | LessThanOrEqualNode (a b : Node)
  | GreaterThanOrEqualNode (a b : Node)
  | ElseAssignmentNode (a b : Node)
  | PrefixOperationNode (node : Node) (difference : ℤ)
  | PostfixOperationNode (node : Node) (difference : ℤ)
  | ListAccessNode (target : Node) (depth : ℤ) (indices : List Node)
  | ListAssignmentNode (accessor value : Node)
  | ListPushBracketsNode (var_name : Option String)
  | ListBinarySelector (a b : Option Node)
  | IfNode (cases : List (Node × Node × Bool)) (else_code : Option Node)
      (else_should_return_null : Bool)
  | ForNode (var_name : String) (start_value : Option Node) (end_value : Node)
      (step_value : Option Node) (body : Node) (should_return_null : Bool)
  | ForeachNode (list_node : Node) (key_name : Option String)
      (value_name : String) (body : Node) (should_return_null : Bool)
  | WhileNode (condition body : Node) (should_return_null : Bool)
  | FuncDefNode (var_name : Option String) (arg_names mandatory_args optional_args : List String)
      (default_values : List Node) (body : Node) (should_auto_return : Bool)
  | CallNode (node_to_call : Node) (arg_nodes : List Node)
  | ReturnNode (node_to_return : Option Node)
  | ContinueNode
  | BreakNode
  | ClassDefNode (class_name : String) (parent_class_name : Option String)
      (properties methods getters setters : List Node)
  | ClassPropertyDefNode (property_name : String) (value : Node)
      (status override : ℤ)
  | ClassMethodDefNode (func : Node) (status override : ℤ)
  | ClassCallNode (class_name : String) (arg_nodes : List Node)
  | CallPropertyNode (node_to_call : Node) (property_name : String)
  | AssignPropertyNode (property : Node) (value : Node)
  | CallMethodNode (node_to_call : Node) (origin : Node)

/-- Parse failures.  The source distinguishes InvalidSyntaxError messages
and spans; the model keeps only the fact that an InvalidSyntaxError was
thrown.  `outOfFuel` is the artefact of the fuel-indexed embedding and
never occurs for the inputs of the theorems below. -/
inductive ParseErr where
  | invalidSyntax
  | outOfFuel
  deriving DecidableEq

/-- Parser state: the remaining token stream.  Both parsers only ever
move forward (the checkpoint helpers `backup`/`rescue`/`backwards` are
dead code, never called), so the cursor-into-array state is modelled as
the remaining suffix of the token list; `advance` drops the head.
A null `current_token` (past the end) is the empty list. -/
abbrev TokSt := List Token

/-- One step of `advance()`. -/
def adv (st : TokSt) : TokSt := st.tail

/-- Whether the current token has the given type (false when the current
token is null). -/
def typeIs (st : TokSt) (tt : TokenType) : Bool :=
  match st with
  | [] => false
  | t :: _ => t.type = tt

/-- Whether the current token matches KEYWORD kind and keyword text. -/
def kwIs (st : TokSt) (kw : String) : Bool :=
  match st with
  | [] => false
  | t :: _ => t.matchesKw .KEYWORD kw

/-- The current token (some) or null (none). -/
def curTok (st : TokSt) : Option Token :=
  st.head?

/-- The string payload of the current token (callers guarantee there is
one). -/
def curStr (st : TokSt) : String :=
  match st with
  | [] => ""
  | t :: _ => t.strValue

/-- The numeric payload of the current token. -/
def curNum (st : TokSt) : ℚ :=
  match st with
  | [] => 0
  | t :: _ => t.numValue

/-- Result of one parsing function: a value plus the rest of the token
stream, or a parse failure. -/
abbrev PRes (α : Type) := Except ParseErr (α × TokSt)

end VersaJS

namespace VersaJS

/-!
## The part_001 parser

Faithful fuel-indexed embedding of the `Parser` class of
`src/unnamed/part_001`.  Each method becomes one function; `while` loops
become auxiliary loop functions.  In this parser the reserved-constant
check (`is_in(var_name_tok.value, Object.keys(CONSTANTS))`) sits on the
bare-identifier reassignment path inside `factor`, and there is no such
check on the `var` declaration path inside `expr`.
This parser writes a colon in the grammar as a SEMICOLON token.
-/

/-- Skip NEWLINE tokens (the `while NEWLINE advance` loops). -/
def skipNEWLINEs : TokSt → TokSt
  | [] => []
  | t :: rest => if t.type = .NEWLINE then skipNEWLINEs rest else t :: rest

/-- Skip NEWLINE tokens, counting them (the newline_count loop in
`statements`). -/
def countNEWLINEs : TokSt → Nat × TokSt
  | [] => (0, [])
  | t :: rest =>
    if t.type = .NEWLINE then
      let (n, st) := countNEWLINEs rest
      (n + 1, st)
    else (0, t :: rest)

namespace Parser1

/-- Case list of an if-chain plus the else clause
({cases, else_case: {code, should_return_null}}). -/
abbrev IfCases := List (Node × Node × Bool) × (Option Node × Bool)

mutual

/-- Parser.statements of part_001. -/
def statements : Nat → TokSt → PRes Node
  | 0, _ => .error .outOfFuel
  | fuel + 1, st =>
    let st := skipNEWLINEs st
    if typeIs st .EOF then .error .invalidSyntax
    else
      match statement fuel st with
      | .error e => .error e
      | .ok (first, st1) =>
        match statementsLoop fuel [first] st1 with
        | .error e => .error e
        | .ok (l, st2) => .ok (.ListNode l, st2)

/-- The while(true) statement-collection loop of `statements`. -/
def statementsLoop : Nat → List Node → TokSt → PRes (List Node)
  | 0, _, _ => .error .outOfFuel
  | fuel + 1, acc, st =>
    let (newline_count, st1) := countNEWLINEs st
    if typeIs st1 .EOF then .ok (acc, st1)
    else if newline_count = 0 then .ok (acc, st1)
    else if kwIs st1 "elif" ∨ kwIs st1 "else" ∨ kwIs st1 "end" then .ok (acc, st1)
    else
      match statement fuel st1 with
      | .error e => .error e
      | .ok (nd, st2) => statementsLoop fuel (acc ++ [nd]) st2

/-- Parser.statement of part_001. -/
def statement : Nat → TokSt → PRes Node
  | 0, _ => .error .outOfFuel
  | fuel + 1, st => expr fuel st

/-- Parser.expr of part_001: the `var` declaration path (no
reserved-constant check here), then comp_expr with an optional
trailing and/or. -/
def expr : Nat → TokSt → PRes Node
  | 0, _ => .error .outOfFuel
  | fuel + 1, st =>
    if kwIs st "var" then
      let st1 := adv st
      if typeIs st1 .IDENTIFIER then
        let var_name := curStr st1
        let st2 := adv st1
        if typeIs st2 .EQUALS then
          match expr fuel (adv st2) with
          | .error e => .error e
          | .ok (value_node, st3) => .ok (.VarAssignNode var_name value_node, st3)
        else .error .invalidSyntax
      else .error .invalidSyntax
    else
      match comp_expr fuel st with
      | .error e => .error e
      | .ok (result, st1) =>
        if kwIs st1 "and" then
          match comp_expr fuel (adv st1) with
          | .error e => .error e
          | .ok (node, st2) => .ok (.AndNode result node, st2)
        else if kwIs st1 "or" then
          match comp_expr fuel (adv st1) with
          | .error e => .error e
          | .ok (node, st2) => .ok (.OrNode result node, st2)
        else .ok (result, st1)

/-- Parser.comp_expr of part_001. -/
def comp_expr : Nat → TokSt → PRes Node
  | 0, _ => .error .outOfFuel
  | fuel + 1, st =>
    if kwIs st "not" then
      match comp_expr fuel (adv st) with
      | .error e => .error e
      | .ok (node, st1) => .ok (.NotNode node, st1)
    else
      match arith_expr fuel st with
      | .error e => .error e
      | .ok (node_a, st1) =>
        if typeIs st1 .DOUBLE_EQUALS then
          match arith_expr fuel (adv st1) with
          | .error e => .error e
          | .ok (b, st2) => .ok (.EqualsNode node_a b, st2)
        else if typeIs st1 .LT then
          match arith_expr fuel (adv st1) with
          | .error e => .error e
          | .ok (b, st2) => .ok (.LessThanNode node_a b, st2)
        else if typeIs st1 .GT then
          match arith_expr fuel (adv st1) with
          | .error e => .error e
          | .ok (b, st2) => .ok (.GreaterThanNode node_a b, st2)
        else if typeIs st1 .LTE then
          match arith_expr fuel (adv st1) with
          | .error e => .error e
          | .ok (b, st2) => .ok (.LessThanOrEqualNode node_a b, st2)
        else if typeIs st1 .GTE then
          match arith_expr fuel (adv st1) with
          | .error e => .error e
          | .ok (b, st2) => .ok (.GreaterThanOrEqualNode node_a b, st2)
        else if typeIs st1 .NOT_EQUAL then
          match arith_expr fuel (adv st1) with
          | .error e => .error e
          | .ok (b, st2) => .ok (.NotEqualsNode node_a b, st2)
        else if typeIs st1 .ELSE_ASSIGN then
          match arith_expr fuel (adv st1) with
          | .error e => .error e
          | .ok (b, st2) => .ok (.ElseAssignmentNode node_a b, st2)
        else .ok (node_a, st1)

/-- Parser.arith_expr of part_001. -/
def arith_expr : Nat → TokSt → PRes Node
  | 0, _ => .error .outOfFuel
  | fuel + 1, st =>
    match term fuel st with
    | .error e => .error e
    | .ok (result, st1) => arithLoop fuel result st1

/-- The PLUS/MINUS while loop of `arith_expr`. -/
def arithLoop : Nat → Node → TokSt → PRes Node
  | 0, _, _ => .error .outOfFuel
  | fuel + 1, result, st =>
    if typeIs st .PLUS then
      match term fuel (adv st) with
      | .error e => .error e
      | .ok (t, st1) => arithLoop fuel (.AddNode result t) st1
    else if typeIs st .MINUS then
      match term fuel (adv st) with
      | .error e => .error e
      | .ok (t, st1) => arithLoop fuel (.SubtractNode result t) st1
    else .ok (result, st)

/-- Parser.term of part_001.  Note the source quirk: each loop iteration
combines the ORIGINAL first factor `node_a` (not the accumulated result)
with the next factor, and the accumulated `result` is returned at the
end when present. -/
def term : Nat → TokSt → PRes Node
  | 0, _ => .error .outOfFuel
  | fuel + 1, st =>
    match factor fuel st with
    | .error e => .error e
    | .ok (node_a, st1) => termLoop fuel node_a Option.none st1

/-- The MULTIPLY/DIVIDE/POWER/MODULO while loop of `term`. -/
def termLoop : Nat → Node → Option Node → TokSt → PRes Node
  | 0, _, _, _ => .error .outOfFuel
  | fuel + 1, node_a, result, st =>
    if typeIs st .MULTIPLY then
      match factor fuel (adv st) with
      | .error e => .error e
      | .ok (b, st1) => termLoop fuel node_a (some (.MultiplyNode node_a b)) st1
    else if typeIs st .DIVIDE then
      match factor fuel (adv st) with
      | .error e => .error e
      | .ok (b, st1) => termLoop fuel node_a (some (.DivideNode node_a b)) st1
    else if typeIs st .POWER then
      match factor fuel (adv st) with
      | .error e => .error e
      | .ok (b, st1) => termLoop fuel node_a (some (.PowerNode node_a b)) st1
    else if typeIs st .MODULO then
      match factor fuel (adv st) with
      | .error e => .error e
      | .ok (b, st1) => termLoop fuel node_a (some (.ModuloNode node_a b)) st1
    else .ok (result.getD node_a, st)

/-- Parser.factor of part_001.  This is the parser method holding the
reserved-constant check: a bare IDENTIFIER followed by EQUALS throws an
InvalidSyntaxError when the identifier is one of the CONSTANTS keys. -/
def factor : Nat → TokSt → PRes Node
  | 0, _ => .error .outOfFuel
  | fuel + 1, st =>
    if typeIs st .LPAREN then
      match expr fuel (adv st) with
      | .error e => .error e
      | .ok (result, st1) =>
        if typeIs st1 .RPAREN then .ok (result, adv st1)
        else .error .invalidSyntax
    else if typeIs st .NUMBER then .ok (.NumberNode (curNum st), adv st)
    else if typeIs st .STRING then .ok (.StringNode (curStr st), adv st)
    else if typeIs st .PLUS then
      match factor fuel (adv st) with
      | .error e => .error e
      | .ok (node, st1) => .ok (.PlusNode node, st1)
    else if typeIs st .MINUS then
      match factor fuel (adv st) with
      | .error e => .error e
      | .ok (node, st1) => .ok (.MinusNode node, st1)
    else if typeIs st .IDENTIFIER then
      let var_name := curStr st
      let st1 := adv st
      if typeIs st1 .EQUALS then
        if is_in var_name CONSTANTS_keys then .error .invalidSyntax
        else
          match expr fuel (adv st1) with
          | .error e => .error e
          | .ok (value_node, st2) => .ok (.VarModifyNode var_name value_node, st2)
      else if typeIs st1 .LSQUARE then
        match listAccessLoop fuel var_name (-1) [] false st1 with
        | .error e => .error e
        | .ok ((depth, index_nodes, is_pushing), st2) =>
          let accessor := Node.ListAccessNode (.VarAccessNode var_name) depth index_nodes
          if typeIs st2 .EQUALS then
            match expr fuel (adv st2) with
            | .error e => .error e
            | .ok (value_node, st3) => .ok (.ListAssignmentNode accessor value_node, st3)
          else if is_pushing then .error .invalidSyntax
          else .ok (accessor, st2)
      else .ok (.VarAccessNode var_name, st1)
    else if typeIs st .LSQUARE then list_expr fuel st
    else if kwIs st "if" then if_expr fuel st
    else if kwIs st "for" then for_expr fuel st
    else if kwIs st "while" then while_expr fuel st
    else .error .invalidSyntax

/-- The bracket-chain while loop of the list-access branch of `factor`
(part_001 stores the list variable token in `ListPushBracketsNode`). -/
def listAccessLoop : Nat → String → ℤ → List Node → Bool → TokSt →
    PRes (ℤ × List Node × Bool)
  | 0, _, _, _, _, _ => .error .outOfFuel
  | fuel + 1, var_name, depth, index_nodes, is_pushing, st =>
    if st = [] ∨ typeIs st .EOF then .ok ((depth, index_nodes, is_pushing), st)
    else if ¬ typeIs st .LSQUARE then .ok ((depth, index_nodes, is_pushing), st)
    else
      let st1 := adv st
      if typeIs st1 .RSQUARE then
        if is_pushing then .error .invalidSyntax
        else
          let index_nodes := index_nodes ++ [Node.ListPushBracketsNode (some var_name)]
          let depth := if typeIs st1 .RSQUARE then depth + 1 else depth
          if typeIs st1 .EOF then .error .invalidSyntax
          else listAccessLoop fuel var_name depth index_nodes true (adv st1)
      else
        match
          (if typeIs st1 .SEMICOLON then .ok (Option.none, st1)
           else
             match expr fuel st1 with
             | .error _ => .error ParseErr.invalidSyntax
             | .ok (e, st2) => .ok (some e, st2) : PRes (Option Node))
        with
        | .error e => .error e
        | .ok (index_expr, st2) =>
          match
            (if typeIs st2 .SEMICOLON then
               let st3 := adv st2
               if typeIs st3 .RSQUARE then
                 .ok (index_nodes ++ [Node.ListBinarySelector index_expr Option.none], st3)
               else
                 match expr fuel st3 with
                 | .error _ => .error ParseErr.invalidSyntax
                 | .ok (right_expr, st4) =>
                   .ok (index_nodes ++ [Node.ListBinarySelector index_expr (some right_expr)], st4)
             else .ok (index_nodes ++ [index_expr.getD (.ListPushBracketsNode (some var_name))], st2)
              : PRes (List Node))
          with
          | .error e => .error e
          | .ok (index_nodes, st5) =>
            let depth := if typeIs st5 .RSQUARE then depth + 1 else depth
            if typeIs st5 .EOF then .error .invalidSyntax
            else listAccessLoop fuel var_name depth index_nodes is_pushing (adv st5)

/-- Parser.list_expr of part_001. -/
def list_expr : Nat → TokSt → PRes Node
  | 0, _ => .error .outOfFuel
  | fuel + 1, st =>
    let st1 := adv st
    if typeIs st1 .RSQUARE then .ok (.ListNode [], adv st1)
    else
      match expr fuel st1 with
      | .error e => .error e
      | .ok (first, st2) =>
        match listExprLoop fuel [first] st2 with
        | .error e => .error e
        | .ok (elements, st3) =>
          if typeIs st3 .RSQUARE then .ok (.ListNode elements, adv st3)
          else .error .invalidSyntax

/-- The COMMA while loop of `list_expr`. -/
def listExprLoop : Nat → List Node → TokSt → PRes (List Node)
  | 0, _, _ => .error .outOfFuel
  | fuel + 1, acc, st =>
    if typeIs st .COMMA then
      match expr fuel (adv st) with
      | .error e => .error e
      | .ok (e, st1) => listExprLoop fuel (acc ++ [e]) st1
    else .ok (acc, st)

/-- Parser.if_expr of part_001. -/
def if_expr : Nat → TokSt → PRes Node
  | 0, _ => .error .outOfFuel
  | fuel + 1, st =>
    match if_expr_cases fuel "if" st with
    | .error e => .error e
    | .ok ((cases, else_case), st1) =>
      .ok (.IfNode cases else_case.1 else_case.2, st1)

/-- Parser.if_expr_cases of part_001 (shared by `if` and `elif`). -/
def if_expr_cases : Nat → String → TokSt → PRes IfCases
  | 0, _, _ => .error .outOfFuel
  | fuel + 1, case_keyword, st =>
    if ¬ kwIs st case_keyword then .error .invalidSyntax
    else
      match expr fuel (adv st) with
      | .error e => .error e
      | .ok (condition, st1) =>
        if ¬ typeIs st1 .SEMICOLON then .error .invalidSyntax
        else
          let st2 := adv st1
          if typeIs st2 .NEWLINE then
            match statements fuel (adv st2) with
            | .error e => .error e
            | .ok (stmts, st3) =>
              if kwIs st3 "end" then
                .ok (([(condition, stmts, true)], (Option.none, false)), adv st3)
              else
                match if_expr_elif_or_else fuel st3 with
                | .error e => .error e
                | .ok ((new_cases, else_case), st4) =>
                  .ok (((condition, stmts, true) :: new_cases, else_case), st4)
          else
            match statement fuel st2 with
            | .error e => .error e
            | .ok (stmt, st3) =>
              match if_expr_elif_or_else fuel st3 with
              | .error e => .error e
              | .ok ((new_cases, else_case), st4) =>
                .ok (((condition, stmt, false) :: new_cases, else_case), st4)

/-- Parser.if_expr_elif_or_else of part_001. -/
def if_expr_elif_or_else : Nat → TokSt → PRes IfCases
  | 0, _ => .error .outOfFuel
  | fuel + 1, st =>
    if kwIs st "elif" then if_expr_elif fuel st
    else
      match if_expr_else fuel st with
      | .error e => .error e
      | .ok (else_case, st1) => .ok (([], else_case), st1)

/-- Parser.if_expr_elif of part_001. -/
def if_expr_elif : Nat → TokSt → PRes IfCases
  | 0, _ => .error .outOfFuel
  | fuel + 1, st => if_expr_cases fuel "elif" st

/-- Parser.if_expr_else of part_001. -/
def if_expr_else : Nat → TokSt → PRes (Option Node × Bool)
  | 0, _ => .error .outOfFuel
  | fuel + 1, st =>
    if kwIs st "else" then
      let st1 := adv st
      if typeIs st1 .SEMICOLON then
        let st2 := adv st1
        if typeIs st2 .NEWLINE then
          match statements fuel (adv st2) with
          | .error e => .error e
          | .ok (stmts, st3) =>
            if kwIs st3 "end" then .ok ((some stmts, true), adv st3)
            else .error .invalidSyntax
        else
          match statement fuel st2 with
          | .error e => .error e
          | .ok (stmt, st3) => .ok ((some stmt, false), st3)
      else .error .invalidSyntax
    else .ok ((Option.none, false), st)

/-- Parser.for_expr of part_001. -/
def for_expr : Nat → TokSt → PRes Node
  | 0, _ => .error .outOfFuel
  | fuel + 1, st =>
    let st1 := adv st
    if ¬ typeIs st1 .IDENTIFIER then .error .invalidSyntax
    else
      let var_name := curStr st1
      let st2 := adv st1
      match
        (if typeIs st2 .EQUALS then
           match expr fuel (adv st2) with
           | .error e => .error e
           | .ok (e, st3) => .ok (some e, st3)
         else .ok (Option.none, st2) : PRes (Option Node))
      with
      | .error e => .error e
      | .ok (start_value, st3) =>
        if ¬ kwIs st3 "to" then .error .invalidSyntax
        else
          match expr fuel (adv st3) with
          | .error e => .error e
          | .ok (end_value, st4) =>
            match
              (if kwIs st4 "step" then
                 match expr fuel (adv st4) with
                 | .error e => .error e
                 | .ok (e, st5) => .ok (some e, st5)
               else .ok (Option.none, st4) : PRes (Option Node))
            with
            | .error e => .error e
            | .ok (step_value, st5) =>
              if ¬ typeIs st5 .SEMICOLON then .error .invalidSyntax
              else
                let st6 := adv st5
                if typeIs st6 .NEWLINE then
                  match statements fuel (adv st6) with
                  | .error e => .error e
                  | .ok (body, st7) =>
                    if kwIs st7 "end" then
                      .ok (.ForNode var_name start_value end_value step_value body true, adv st7)
                    else .error .invalidSyntax
                else
                  match statement fuel st6 with
                  | .error e => .error e
                  | .ok (body, st7) =>
                    .ok (.ForNode var_name start_value end_value step_value body false, st7)

/-- Parser.while_expr of part_001. -/
def while_expr : Nat → TokSt → PRes Node
  | 0, _ => .error .outOfFuel
  | fuel + 1, st =>
    match expr fuel (adv st) with
    | .error e => .error e
    | .ok (condition, st1) =>
      if ¬ typeIs st1 .SEMICOLON then .error .invalidSyntax
      else
        let st2 := adv st1
        if typeIs st2 .NEWLINE then
          match statements fuel (adv st2) with
          | .error e => .error e
          | .ok (body, st3) =>
            if kwIs st3 "end" then .ok (.WhileNode condition body true, adv st3)
            else .error .invalidSyntax
        else
          match statement fuel st2 with
          | .error e => .error e
          | .ok (body, st3) => .ok (.WhileNode condition body false, st3)

end

/-- Parser.parse of part_001: null token stream parses to null; after
`statements`, anything left but EOF is an error. -/
def parse (fuel : Nat) (st : TokSt) : Except ParseErr (Option Node) :=
  if st = [] then .ok Option.none
  else
    match statements fuel st with
    | .error e => .error e
    | .ok (result, st1) =>
      if st1 = [] ∨ typeIs st1 .EOF then .ok (some result)
      else .error .invalidSyntax

end Parser1

end VersaJS

namespace VersaJS

/-!
## The part_002 parser

Faithful fuel-indexed embedding of the `Parser` class of
`src/unnamed/part_002` (the later parser: define/delete, functions,
classes, dictionaries, property chains, prefix/postfix increment).
In this parser there is NO reserved-constant check anywhere: neither the
var/define declaration path in `expr` nor the bare-identifier
reassignment path in `atom` consults `CONSTANTS`.
This parser writes a colon as a COLON token and treats a SEMICOLON as a
newline (`is_newline`).
-/

/-- is_newline of part_002: NEWLINE, or a SEMICOLON. -/
def isNewline (st : TokSt) : Bool :=
  typeIs st .NEWLINE ∨ typeIs st .SEMICOLON

/-- Count-and-skip loop over is_newline tokens (the newline_count loop of
the part_002 `statements`). -/
def countIsNewlines : TokSt → Nat × TokSt
  | [] => (0, [])
  | t :: rest =>
    if t.type = .NEWLINE ∨ t.type = .SEMICOLON then
      let (n, st) := countIsNewlines rest
      (n + 1, st)
    else (0, t :: rest)

/-- Count and consume consecutive INC tokens. -/
def countINC : TokSt → Nat × TokSt
  | [] => (0, [])
  | t :: rest =>
    if t.type = .INC then
      let (n, st) := countINC rest
      (n + 1, st)
    else (0, t :: rest)

/-- Count and consume consecutive DEC tokens. -/
def countDEC : TokSt → Nat × TokSt
  | [] => (0, [])
  | t :: rest =>
    if t.type = .DEC then
      let (n, st) := countDEC rest
      (n + 1, st)
    else (0, t :: rest)

namespace Parser2

/-- Case list of an if-chain plus the else clause. -/
abbrev IfCases := List (Node × Node × Bool) × (Option Node × Bool)

/-- The four member lists collected by class_expr: properties, methods,
getters, setters. -/
abbrev ClassMembers := List Node × List Node × List Node × List Node

mutual

/-- Parser.statements of part_002 (is_newline aware). -/
def statements : Nat → TokSt → PRes Node
  | 0, _ => .error .outOfFuel
  | fuel + 1, st =>
    let (_, st) := countIsNewlines st
    if typeIs st .EOF then .error .invalidSyntax
    else
      match statement fuel st with
      | .error e => .error e
      | .ok (first, st1) =>
        match statementsLoop fuel [first] st1 with
        | .error e => .error e
        | .ok (l, st2) => .ok (.ListNode l, st2)

/-- The while(true) statement-collection loop of the part_002
`statements`. -/
def statementsLoop : Nat → List Node → TokSt → PRes (List Node)
  | 0, _, _ => .error .outOfFuel
  | fuel + 1, acc, st =>
    let (newline_count, st1) := countIsNewlines st
    if typeIs st1 .EOF then .ok (acc, st1)
    else if newline_count = 0 then .ok (acc, st1)
    else if kwIs st1 "elif" ∨ kwIs st1 "else" ∨ kwIs st1 "end" then .ok (acc, st1)
    else
      match statement fuel st1 with
      | .error e => .error e
      | .ok (nd, st2) => statementsLoop fuel (acc ++ [nd]) st2

/-- Parser.statement of part_002: return / continue / break / class,
else an expression. -/
def statement : Nat → TokSt → PRes Node
  | 0, _ => .error .outOfFuel
  | fuel + 1, st =>
    if kwIs st "return" then
      let st1 := skipNEWLINEs (adv st)
      if ¬ isNewline st1 ∧ ¬ typeIs st1 .EOF then
        match expr fuel st1 with
        | .error e => .error e
        | .ok (e, st2) => .ok (.ReturnNode (some e), st2)
      else .ok (.ReturnNode Option.none, st1)
    else if kwIs st "continue" then .ok (.ContinueNode, adv st)
    else if kwIs st "break" then .ok (.BreakNode, adv st)
    else if kwIs st "class" then class_expr fuel st
    else expr fuel st

/-- Parser.class_expr of part_002. -/
def class_expr : Nat → TokSt → PRes Node
  | 0, _ => .error .outOfFuel
  | fuel + 1, st =>
    let st1 := adv st
    if ¬ typeIs st1 .IDENTIFIER then .error .invalidSyntax
    else
      let class_name := curStr st1
      let st2 := adv st1
      match
        (if kwIs st2 "extends" then
           let st3 := adv st2
           if ¬ typeIs st3 .IDENTIFIER then .error ParseErr.invalidSyntax
           else .ok (some (curStr st3), adv st3)
         else .ok (Option.none, st2) : PRes (Option String))
      with
      | .error e => .error e
      | .ok (parent_class, st3) =>
        if ¬ typeIs st3 .COLON then .error .invalidSyntax
        else
          let st4 := skipNEWLINEs (adv st3)
          match classMembersLoop fuel ([], [], [], []) st4 with
          | .error e => .error e
          | .ok ((properties, methods, getters, setters), st5) =>
            if kwIs st5 "end" then
              .ok (.ClassDefNode class_name parent_class properties methods getters setters,
                   adv st5)
            else .error .invalidSyntax

/-- The member-collection while loop of `class_expr`.  Faithful to the
source quirks: a single modifier keyword is consumed per iteration, and
the method branch and the property branch are two successive
independent if-statements. -/
def classMembersLoop : Nat → ClassMembers → TokSt → PRes ClassMembers
  | 0, _, _ => .error .outOfFuel
  | fuel + 1, (properties, methods, getters, setters), st =>
    if ¬ (kwIs st "private" ∨ kwIs st "public" ∨ kwIs st "protected" ∨
          kwIs st "override" ∨ kwIs st "property" ∨ kwIs st "method" ∨
          kwIs st "set" ∨ kwIs st "get") then
      .ok ((properties, methods, getters, setters), st)
    else
      let status : ℤ := if kwIs st "private" then 0 else if kwIs st "protected" then 2 else 1
      let override : ℤ := if kwIs st "override" then 1 else 0
      let st1 :=
        if kwIs st "private" ∨ kwIs st "public" ∨ kwIs st "protected" ∨ kwIs st "override"
        then adv st else st
      match
        (if kwIs st1 "get" ∨ kwIs st1 "set" ∨ kwIs st1 "method" then
           let is_get := kwIs st1 "get"
           let is_set := kwIs st1 "set"
           let is_met := kwIs st1 "method"
           match func_expr fuel st1 with
           | .error e => .error e
           | .ok (func, st2) =>
             match func with
             | .FuncDefNode Option.none _ _ _ _ _ _ => .error ParseErr.invalidSyntax
             | _ =>
               let node := Node.ClassMethodDefNode func status override
               .ok ((properties,
                     if is_met then methods ++ [node] else methods,
                     if is_get then getters ++ [node] else getters,
                     if is_set then setters ++ [node] else setters),
                    skipNEWLINEs (adv st2))
         else .ok ((properties, methods, getters, setters), st1) : PRes ClassMembers)
      with
      | .error e => .error e
      | .ok ((properties, methods, getters, setters), st2) =>
        match
          (if kwIs st2 "property" then
             let st3 := adv st2
             if ¬ typeIs st3 .IDENTIFIER then .error ParseErr.invalidSyntax
             else
               let property_name := curStr st3
               let st4 := adv st3
               match
                 (if typeIs st4 .EQUALS then expr fuel (adv st4)
                  else .ok (Node.NumberNode 0, st4) : PRes Node)
               with
               | .error e => .error e
               | .ok (value_node, st5) =>
                 .ok ((properties ++ [Node.ClassPropertyDefNode property_name value_node status override],
                       methods, getters, setters),
                      skipNEWLINEs (adv st5))
           else .ok ((properties, methods, getters, setters), st2) : PRes ClassMembers)
        with
        | .error e => .error e
        | .ok (members, st6) => classMembersLoop fuel members st6

/-- Parser.expr of part_002: the var/define declaration path (no
reserved-constant check), the delete path, then comp_expr with an
optional trailing and/or. -/
def expr : Nat → TokSt → PRes Node
  | 0, _ => .error .outOfFuel
  | fuel + 1, st =>
    if kwIs st "var" ∨ kwIs st "define" then
      let is_variable := kwIs st "var"
      let st1 := adv st
      if ¬ typeIs st1 .IDENTIFIER then .error .invalidSyntax
      else
        let var_name := curStr st1
        let st2 := adv st1
        if ¬ typeIs st2 .EQUALS then .error .invalidSyntax
        else
          match expr fuel (adv st2) with
          | .error e => .error e
          | .ok (value_node, st3) =>
            if is_variable then .ok (.VarAssignNode var_name value_node, st3)
            else .ok (.DefineNode var_name value_node, st3)
    else if kwIs st "delete" then
      match call fuel (adv st) with
      | .error e => .error e
      | .ok (node_to_delete, st1) => .ok (.DeleteNode node_to_delete, st1)
    else
      match comp_expr fuel st with
      | .error e => .error e
      | .ok (result, st1) =>
        if kwIs st1 "and" then
          match comp_expr fuel (adv st1) with
          | .error e => .error e
          | .ok (node, st2) => .ok (.AndNode result node, st2)
        else if kwIs st1 "or" then
          match comp_expr fuel (adv st1) with
          | .error e => .error e
          | .ok (node, st2) => .ok (.OrNode result node, st2)
        else .ok (result, st1)

/-- Parser.comp_expr of part_002 (same shape as part_001). -/
def comp_expr : Nat → TokSt → PRes Node
  | 0, _ => .error .outOfFuel
  | fuel + 1, st =>
    if kwIs st "not" then
      match comp_expr fuel (adv st) with
      | .error e => .error e
      | .ok (node, st1) => .ok (.NotNode node, st1)
    else
      match arith_expr fuel st with
      | .error e => .error e
      | .ok (node_a, st1) =>
        if typeIs st1 .DOUBLE_EQUALS then
          match arith_expr fuel (adv st1) with
          | .error e => .error e
          | .ok (b, st2) => .ok (.EqualsNode node_a b, st2)
        else if typeIs st1 .LT then
          match arith_expr fuel (adv st1) with
          | .error e => .error e
          | .ok (b, st2) => .ok (.LessThanNode node_a b, st2)
        else if typeIs st1 .GT then
          match arith_expr fuel (adv st1) with
          | .error e => .error e
          | .ok (b, st2) => .ok (.GreaterThanNode node_a b, st2)
        else if typeIs st1 .LTE then
          match arith_expr fuel (adv st1) with
          | .error e => .error e
          | .ok (b, st2) => .ok (.LessThanOrEqualNode node_a b, st2)
        else if typeIs st1 .GTE then
          match arith_expr fuel (adv st1) with
          | .error e => .error e
          | .ok (b, st2) => .ok (.GreaterThanOrEqualNode node_a b, st2)
        else if typeIs st1 .NOT_EQUAL then
          match arith_expr fuel (adv st1) with
          | .error e => .error e
          | .ok (b, st2) => .ok (.NotEqualsNode node_a b, st2)
        else if typeIs st1 .ELSE_ASSIGN then
          match arith_expr fuel (adv st1) with
          | .error e => .error e
          | .ok (b, st2) => .ok (.ElseAssignmentNode node_a b, st2)
        else .ok (node_a, st1)

/-- Parser.arith_expr of part_002. -/
def arith_expr : Nat → TokSt → PRes Node
  | 0, _ => .error .outOfFuel
  | fuel + 1, st =>
    match term fuel st with
    | .error e => .error e
    | .ok (result, st1) => arithLoop fuel result st1

/-- The PLUS/MINUS/INC/DEC while loop of the part_002 `arith_expr`, with
fused += / -= compound assignment and postfix increment/decrement. -/
def arithLoop : Nat → Node → TokSt → PRes Node
  | 0, _, _ => .error .outOfFuel
  | fuel + 1, result, st =>
    if typeIs st .PLUS then
      let st1 := adv st
      if typeIs st1 .EQUALS then
        match result with
        | .VarAccessNode name =>
          match expr fuel (adv st1) with
          | .error e => .error e
          | .ok (e, st2) => .ok (.VarModifyNode name (.AddNode result e), st2)
        | .ListAccessNode _ _ _ =>
          match expr fuel (adv st1) with
          | .error e => .error e
          | .ok (e, st2) => .ok (.ListAssignmentNode result (.AddNode result e), st2)
        | _ => .error .invalidSyntax
      else
        match term fuel st1 with
        | .error e => .error e
        | .ok (t, st2) => arithLoop fuel (.AddNode result t) st2
    else if typeIs st .MINUS then
      let st1 := adv st
      if typeIs st1 .EQUALS then
        match result with
        | .VarAccessNode name =>
          match expr fuel (adv st1) with
          | .error e => .error e
          | .ok (e, st2) => .ok (.VarModifyNode name (.SubtractNode result e), st2)
        | .ListAccessNode _ _ _ =>
          match expr fuel (adv st1) with
          | .error e => .error e
          | .ok (e, st2) => .ok (.ListAssignmentNode result (.SubtractNode result e), st2)
        | _ => .error .invalidSyntax
      else
        match term fuel st1 with
        | .error e => .error e
        | .ok (t, st2) => arithLoop fuel (.SubtractNode result t) st2
    else if typeIs st .INC then
      let (k, st1) := countINC (adv st)
      let difference : ℤ := 1 + k
      match result with
      | .ListAccessNode _ _ _ =>
        .ok (.ListAssignmentNode result (.AddNode result (.NumberNode (difference : ℚ))), st1)
      | _ => .ok (.PostfixOperationNode result difference, st1)
    else if typeIs st .DEC then
      let (k, st1) := countDEC (adv st)
      let difference : ℤ := -(1 + k)
      match result with
      | .ListAccessNode _ _ _ =>
        .ok (.ListAssignmentNode result (.AddNode result (.NumberNode (difference : ℚ))), st1)
      | _ => .ok (.PostfixOperationNode result difference, st1)
    else .ok (result, st)

/-- Parser.term of part_002. -/
def term : Nat → TokSt → PRes Node
  | 0, _ => .error .outOfFuel
  | fuel + 1, st =>
    match factor fuel st with
    | .error e => .error e
    | .ok (node_a, st1) => termLoop fuel node_a Option.none st1

/-- The MULTIPLY/DIVIDE/POWER/MODULO while loop of the part_002 `term`
with fused compound assignment; unlike part_001 it accumulates
`result ? result : node_a` as the left operand, while the compound
branches still inspect the ORIGINAL `node_a`. -/
def termLoop : Nat → Node → Option Node → TokSt → PRes Node
  | 0, _, _, _ => .error .outOfFuel
  | fuel + 1, node_a, result, st =>
    if typeIs st .MULTIPLY then
      let st1 := adv st
      if typeIs st1 .EQUALS then
        match node_a with
        | .VarAccessNode name =>
          match expr fuel (adv st1) with
          | .error e => .error e
          | .ok (e, st2) => .ok (.VarModifyNode name (.MultiplyNode node_a e), st2)
        | .ListAccessNode _ _ _ =>
          match expr fuel (adv st1) with
          | .error e => .error e
          | .ok (e, st2) => .ok (.ListAssignmentNode node_a (.MultiplyNode node_a e), st2)
        | _ => .error .invalidSyntax
      else
        match factor fuel st1 with
        | .error e => .error e
        | .ok (b, st2) => termLoop fuel node_a (some (.MultiplyNode (result.getD node_a) b)) st2
    else if typeIs st .DIVIDE then
      let st1 := adv st
      if typeIs st1 .EQUALS then
        match node_a with
        | .VarAccessNode name =>
          match expr fuel (adv st1) with
          | .error e => .error e
          | .ok (e, st2) => .ok (.VarModifyNode name (.DivideNode node_a e), st2)
        | .ListAccessNode _ _ _ =>
          match expr fuel (adv st1) with
          | .error e => .error e
          | .ok (e, st2) => .ok (.ListAssignmentNode node_a (.DivideNode node_a e), st2)
        | _ => .error .invalidSyntax
      else
        match factor fuel st1 with
        | .error e => .error e
        | .ok (b, st2) => termLoop fuel node_a (some (.DivideNode (result.getD node_a) b)) st2
    else if typeIs st .POWER then
      let st1 := adv st
      if typeIs st1 .EQUALS then
        match node_a with
        | .VarAccessNode name =>
          match expr fuel (adv st1) with
          | .error e => .error e
          | .ok (e, st2) => .ok (.VarModifyNode name (.PowerNode node_a e), st2)
        | .ListAccessNode _ _ _ =>
          match expr fuel (adv st1) with
          | .error e => .error e
          | .ok (e, st2) => .ok (.ListAssignmentNode node_a (.PowerNode node_a e), st2)
        | _ => .error .invalidSyntax
      else
        match factor fuel st1 with
        | .error e => .error e
        | .ok (b, st2) => termLoop fuel node_a (some (.PowerNode (result.getD node_a) b)) st2
    else if typeIs st .MODULO then
      let st1 := adv st
      if typeIs st1 .EQUALS then
        match node_a with
        | .VarAccessNode name =>
          match expr fuel (adv st1) with
          | .error e => .error e
          | .ok (e, st2) => .ok (.VarModifyNode name (.ModuloNode node_a e), st2)
        | .ListAccessNode _ _ _ =>
          match expr fuel (adv st1) with
          | .error e => .error e
          | .ok (e, st2) => .ok (.ListAssignmentNode node_a (.ModuloNode node_a e), st2)
        | _ => .error .invalidSyntax
      else
        match factor fuel st1 with
        | .error e => .error e
        | .ok (b, st2) => termLoop fuel node_a (some (.ModuloNode (result.getD node_a) b)) st2
    else .ok (result.getD node_a, st)

/-- Parser.factor of part_002: unary plus/minus over `prop`, prefix
increment/decrement over `term`, else `prop`. -/
def factor : Nat → TokSt → PRes Node
  | 0, _ => .error .outOfFuel
  | fuel + 1, st =>
    if typeIs st .PLUS then
      match prop fuel (adv st) with
      | .error e => .error e
      | .ok (node, st1) => .ok (.PlusNode node, st1)
    else if typeIs st .MINUS then
      match prop fuel (adv st) with
      | .error e => .error e
      | .ok (node, st1) => .ok (.MinusNode node, st1)
    else if typeIs st .INC then
      let (k, st1) := countINC (adv st)
      match term fuel st1 with
      | .error e => .error e
      | .ok (e, st2) => .ok (.PrefixOperationNode e (1 + k), st2)
    else if typeIs st .DEC then
      let (k, st1) := countDEC (adv st)
      match term fuel st1 with
      | .error e => .error e
      | .ok (e, st2) => .ok (.PrefixOperationNode e (-(1 + (k : ℤ))), st2)
    else prop fuel st

/-- Parser.prop of part_002: a call, then an optional dotted
property/method chain, then an optional property assignment. -/
def prop : Nat → TokSt → PRes Node
  | 0, _ => .error .outOfFuel
  | fuel + 1, st =>
    match call fuel st with
    | .error e => .error e
    | .ok (node_to_call, st1) =>
      if typeIs st1 .DOT then
        match propLoop fuel node_to_call Option.none st1 with
        | .error e => .error e
        | .ok (result, st2) =>
          if typeIs st2 .EQUALS then
            match result with
            | some (Node.CallPropertyNode a b) =>
              match expr fuel (adv st2) with
              | .error e => .error e
              | .ok (value_node, st3) =>
                .ok (.AssignPropertyNode (.CallPropertyNode a b) value_node, st3)
            | _ => .error .invalidSyntax
          else .ok (result.getD node_to_call, st2)
      else .ok (node_to_call, st1)

/-- The DOT while loop of `prop`. -/
def propLoop : Nat → Node → Option Node → TokSt → PRes (Option Node)
  | 0, _, _, _ => .error .outOfFuel
  | fuel + 1, node_to_call, result, st =>
    if st = [] ∨ typeIs st .EOF then .ok (result, st)
    else if ¬ typeIs st .DOT then .ok (result, st)
    else
      let st1 := skipNEWLINEs (adv st)
      if typeIs st1 .DOT then .error .invalidSyntax
      else if ¬ typeIs st1 .IDENTIFIER then .error .invalidSyntax
      else
        let property_name := curStr st1
        let st2 := adv st1
        let call_node := Node.CallPropertyNode (result.getD node_to_call) property_name
        if typeIs st2 .LPAREN then
          match helper_call_func fuel call_node st2 with
          | .error e => .error e
          | .ok (r, st3) =>
            propLoop fuel node_to_call (some (.CallMethodNode r node_to_call)) st3
        else if typeIs st2 .LSQUARE then
          match helper_call_list fuel call_node st2 with
          | .error e => .error e
          | .ok (r, st3) => propLoop fuel node_to_call (some r) st3
        else propLoop fuel node_to_call (some call_node) st2

/-- Parser.call of part_002: the `new` class-instantiation branch, else
an atom followed by a call/index chain. -/
def call : Nat → TokSt → PRes Node
  | 0, _ => .error .outOfFuel
  | fuel + 1, st =>
    if kwIs st "new" then
      let st1 := adv st
      if ¬ typeIs st1 .IDENTIFIER then .error .invalidSyntax
      else
        let class_name := curStr st1
        let st2 := adv st1
        if ¬ typeIs st2 .LPAREN then .error .invalidSyntax
        else
          let st3 := skipNEWLINEs (adv st2)
          if typeIs st3 .RPAREN then .ok (.ClassCallNode class_name [], adv st3)
          else
            match expr fuel st3 with
            | .error e => .error e
            | .ok (first, st4) =>
              match callArgsLoop fuel [first] (skipNEWLINEs st4) with
              | .error e => .error e
              | .ok (arg_nodes, st5) =>
                let st6 := skipNEWLINEs st5
                if typeIs st6 .RPAREN then .ok (.ClassCallNode class_name arg_nodes, adv st6)
                else .error .invalidSyntax
    else
      match atom fuel st with
      | .error e => .error e
      | .ok (a, st1) => callLoop fuel a Option.none st1

/-- The LPAREN/LSQUARE chain while loop of `call`. -/
def callLoop : Nat → Node → Option Node → TokSt → PRes Node
  | 0, _, _, _ => .error .outOfFuel
  | fuel + 1, a, result, st =>
    if typeIs st .LPAREN then
      match helper_call_func fuel (result.getD a) st with
      | .error e => .error e
      | .ok (r, st1) => callLoop fuel a (some r) st1
    else if typeIs st .LSQUARE then
      match helper_call_list fuel (result.getD a) st with
      | .error e => .error e
      | .ok (r, st1) => callLoop fuel a (some r) st1
    else .ok (result.getD a, st)

/-- The COMMA argument loop shared by call-style argument lists. -/
def callArgsLoop : Nat → List Node → TokSt → PRes (List Node)
  | 0, _, _ => .error .outOfFuel
  | fuel + 1, acc, st =>
    if typeIs st .COMMA then
      match expr fuel (skipNEWLINEs (adv st)) with
      | .error e => .error e
      | .ok (e, st1) => callArgsLoop fuel (acc ++ [e]) st1
    else .ok (acc, st)

/-- Parser.helper_call_func of part_002 (grammar `call_func`). -/
def helper_call_func : Nat → Node → TokSt → PRes Node
  | 0, _, _ => .error .outOfFuel
  | fuel + 1, a, st =>
    if typeIs st .LPAREN then
      match callFuncLoop fuel a Option.none st with
      | .error e => .error e
      | .ok (result, st1) => .ok (result.getD a, st1)
    else .ok (a, st)

/-- The repeated-invocation while loop of `helper_call_func`; each
iteration consumes one parenthesised argument list. -/
def callFuncLoop : Nat → Node → Option Node → TokSt → PRes (Option Node)
  | 0, _, _, _ => .error .outOfFuel
  | fuel + 1, a, result, st =>
    if st = [] ∨ typeIs st .EOF then .ok (result, st)
    else if ¬ typeIs st .LPAREN then .ok (result, st)
    else
      let st1 := skipNEWLINEs (adv st)
      if typeIs st1 .RPAREN then
        callFuncLoop fuel a (some (.CallNode (result.getD a) [])) (adv st1)
      else
        match expr fuel st1 with
        | .error _ => .error .invalidSyntax
        | .ok (first, st2) =>
          match callArgsLoop fuel [first] (skipNEWLINEs st2) with
          | .error e => .error e
          | .ok (arg_nodes, st3) =>
            let st4 := skipNEWLINEs st3
            if typeIs st4 .RPAREN then
              callFuncLoop fuel a (some (.CallNode (result.getD a) arg_nodes)) (adv st4)
            else .error .invalidSyntax

/-- Parser.helper_call_list of part_002 (grammar `call_list`); the slice
separator is a COLON here. -/
def helper_call_list : Nat → Node → TokSt → PRes Node
  | 0, _, _ => .error .outOfFuel
  | fuel + 1, a, st =>
    if typeIs st .LSQUARE then
      match helperCallListLoop fuel (-1) [] false st with
      | .error e => .error e
      | .ok ((depth, index_nodes, is_pushing), st1) =>
        let accessor := Node.ListAccessNode a depth index_nodes
        if typeIs st1 .EQUALS then
          match expr fuel (adv st1) with
          | .error e => .error e
          | .ok (value_node, st2) => .ok (.ListAssignmentNode accessor value_node, st2)
        else if is_pushing then .error .invalidSyntax
        else .ok (accessor, st1)
    else .ok (a, st)

/-- The bracket-chain while loop of `helper_call_list` (part_002 erases
the variable token from `ListPushBracketsNode`, keeping only spans,
dropped here). -/
def helperCallListLoop : Nat → ℤ → List Node → Bool → TokSt →
    PRes (ℤ × List Node × Bool)
  | 0, _, _, _, _ => .error .outOfFuel
  | fuel + 1, depth, index_nodes, is_pushing, st =>
    if st = [] ∨ typeIs st .EOF then .ok ((depth, index_nodes, is_pushing), st)
    else if ¬ typeIs st .LSQUARE then .ok ((depth, index_nodes, is_pushing), st)
    else if is_pushing then .error .invalidSyntax
    else
      let st1 := skipNEWLINEs (adv st)
      if typeIs st1 .RSQUARE then
        let index_nodes := index_nodes ++ [Node.ListPushBracketsNode Option.none]
        let depth := if typeIs st1 .RSQUARE then depth + 1 else depth
        if typeIs st1 .EOF then .error .invalidSyntax
        else helperCallListLoop fuel depth index_nodes true (adv st1)
      else
        match
          (if typeIs st1 .COLON then .ok (Option.none, st1)
           else
             match expr fuel st1 with
             | .error _ => .error ParseErr.invalidSyntax
             | .ok (e, st2) => .ok (some e, skipNEWLINEs st2) : PRes (Option Node))
        with
        | .error e => .error e
        | .ok (index_expr, st2) =>
          match
            (if typeIs st2 .COLON then
               let st3 := adv st2
               if typeIs st3 .RSQUARE then
                 .ok (index_nodes ++ [Node.ListBinarySelector index_expr Option.none], st3)
               else
                 match expr fuel st3 with
                 | .error _ => .error ParseErr.invalidSyntax
                 | .ok (right_expr, st4) =>
                   .ok (index_nodes ++ [Node.ListBinarySelector index_expr (some right_expr)],
                        skipNEWLINEs st4)
             else .ok (index_nodes ++ [index_expr.getD (.ListPushBracketsNode Option.none)], st2)
              : PRes (List Node))
          with
          | .error e => .error e
          | .ok (index_nodes, st5) =>
            let depth := if typeIs st5 .RSQUARE then depth + 1 else depth
            if typeIs st5 .EOF then .error .invalidSyntax
            else helperCallListLoop fuel depth index_nodes is_pushing (adv st5)

/-- Parser.atom of part_002.  The IDENTIFIER branch holds the f-string
special case and the bare reassignment path that, unlike part_001,
performs NO reserved-constant check. -/
def atom : Nat → TokSt → PRes Node
  | 0, _ => .error .outOfFuel
  | fuel + 1, st =>
    if typeIs st .LPAREN then
      match expr fuel (adv st) with
      | .error e => .error e
      | .ok (result, st1) =>
        if typeIs st1 .RPAREN then .ok (result, adv st1)
        else .error .invalidSyntax
    else if typeIs st .NUMBER then .ok (.NumberNode (curNum st), adv st)
    else if typeIs st .STRING then .ok (.StringNode (curStr st), adv st)
    else if typeIs st .IDENTIFIER then
      let var_name := curStr st
      let st1 := adv st
      if (var_name == "f") && typeIs st1 .STRING then
        .ok (.StringNode (curStr st1), adv st1)
      else if typeIs st1 .EQUALS then
        match expr fuel (adv st1) with
        | .error e => .error e
        | .ok (value_node, st2) => .ok (.VarModifyNode var_name value_node, st2)
      else .ok (.VarAccessNode var_name, st1)
    else if typeIs st .LSQUARE then list_expr fuel st
    else if typeIs st .LBRACK then dict_expr fuel st
    else if kwIs st "if" then if_expr fuel st
    else if kwIs st "for" then for_expr fuel st
    else if kwIs st "foreach" then foreach_expr fuel st
    else if kwIs st "while" then while_expr fuel st
    else if kwIs st "func" then func_expr fuel st
    else .error .invalidSyntax

/-- Parser.list_expr of part_002 (newline tolerant, trailing comma
allowed). -/
def list_expr : Nat → TokSt → PRes Node
  | 0, _ => .error .outOfFuel
  | fuel + 1, st =>
    let st1 := skipNEWLINEs (adv st)
    if typeIs st1 .RSQUARE then .ok (.ListNode [], adv st1)
    else
      match expr fuel st1 with
      | .error e => .error e
      | .ok (first, st2) =>
        match listExprLoop fuel [first] (skipNEWLINEs st2) with
        | .error e => .error e
        | .ok (elements, st3) =>
          if typeIs st3 .RSQUARE then .ok (.ListNode elements, adv st3)
          else .error .invalidSyntax

/-- The COMMA while loop of the part_002 `list_expr` (breaks on a
trailing comma before RSQUARE). -/
def listExprLoop : Nat → List Node → TokSt → PRes (List Node)
  | 0, _, _ => .error .outOfFuel
  | fuel + 1, acc, st =>
    if typeIs st .COMMA then
      let st1 := skipNEWLINEs (adv st)
      if typeIs st1 .RSQUARE then .ok (acc, st1)
      else
        match expr fuel st1 with
        | .error e => .error e
        | .ok (e, st2) => listExprLoop fuel (acc ++ [e]) (skipNEWLINEs st2)
    else .ok (acc, st)

/-- Parser.dict_expr of part_002. -/
def dict_expr : Nat → TokSt → PRes Node
  | 0, _ => .error .outOfFuel
  | fuel + 1, st =>
    let st1 := skipNEWLINEs (adv st)
    if typeIs st1 .RBRACK then .ok (.DictionnaryNode [], adv st1)
    else
      match read_element fuel st1 with
      | .error e => .error e
      | .ok (first, st2) =>
        match dictLoop fuel [first] st2 with
        | .error e => .error e
        | .ok (elements, st3) =>
          let st4 := skipNEWLINEs st3
          if typeIs st4 .RBRACK then .ok (.DictionnaryNode elements, adv st4)
          else .error .invalidSyntax

/-- The read_element closure of `dict_expr`: parses one key (an
expression), then dispatches on its node kind.  A StringNode key demands
a COLON and a value expression; a VarAccessNode key (a plain identifier)
demands NO colon and desugars to key StringNode(name), value
VarAccessNode(name); any other key kind is an InvalidSyntaxError. -/
def read_element : Nat → TokSt → PRes Node
  | 0, _ => .error .outOfFuel
  | fuel + 1, st =>
    match expr fuel st with
    | .error e => .error e
    | .ok (key, st1) =>
      let st2 := skipNEWLINEs st1
      match key with
      | .StringNode s =>
        if ¬ typeIs st2 .COLON then .error .invalidSyntax
        else
          match expr fuel (skipNEWLINEs (adv st2)) with
          | .error e => .error e
          | .ok (value, st3) =>
            .ok (.DictionnaryElementNode (.StringNode s) value, skipNEWLINEs st3)
      | .VarAccessNode name =>
        if typeIs st2 .COLON then .error .invalidSyntax
        else .ok (.DictionnaryElementNode (.StringNode name) (.VarAccessNode name), st2)
      | _ => .error .invalidSyntax

/-- The COMMA while loop of `dict_expr` (breaks on a trailing comma
before RBRACK). -/
def dictLoop : Nat → List Node → TokSt → PRes (List Node)
  | 0, _, _ => .error .outOfFuel
  | fuel + 1, acc, st =>
    if typeIs st .COMMA then
      let st1 := skipNEWLINEs (adv st)
      if typeIs st1 .RBRACK then .ok (acc, st1)
      else
        match read_element fuel st1 with
        | .error e => .error e
        | .ok (e, st2) => dictLoop fuel (acc ++ [e]) st2
    else .ok (acc, st)

/-- Parser.if_expr of part_002. -/
def if_expr : Nat → TokSt → PRes Node
  | 0, _ => .error .outOfFuel
  | fuel + 1, st =>
    match if_expr_cases fuel "if" st with
    | .error e => .error e
    | .ok ((cases, else_case), st1) =>
      .ok (.IfNode cases else_case.1 else_case.2, st1)

/-- Parser.if_expr_cases of part_002 (COLON, is_newline). -/
def if_expr_cases : Nat → String → TokSt → PRes IfCases
  | 0, _, _ => .error .outOfFuel
  | fuel + 1, case_keyword, st =>
    if ¬ kwIs st case_keyword then .error .invalidSyntax
    else
      match expr fuel (adv st) with
      | .error e => .error e
      | .ok (condition, st1) =>
        if ¬ typeIs st1 .COLON then .error .invalidSyntax
        else
          let st2 := adv st1
          if isNewline st2 then
            match statements fuel (adv st2) with
            | .error e => .error e
            | .ok (stmts, st3) =>
              if kwIs st3 "end" then
                .ok (([(condition, stmts, true)], (Option.none, false)), adv st3)
              else
                match if_expr_elif_or_else fuel st3 with
                | .error e => .error e
                | .ok ((new_cases, else_case), st4) =>
                  .ok (((condition, stmts, true) :: new_cases, else_case), st4)
          else
            match statement fuel st2 with
            | .error e => .error e
            | .ok (stmt, st3) =>
              match if_expr_elif_or_else fuel st3 with
              | .error e => .error e
              | .ok ((new_cases, else_case), st4) =>
                .ok (((condition, stmt, false) :: new_cases, else_case), st4)

/-- Parser.if_expr_elif_or_else of part_002. -/
def if_expr_elif_or_else : Nat → TokSt → PRes IfCases
  | 0, _ => .error .outOfFuel
  | fuel + 1, st =>
    if kwIs st "elif" then if_expr_elif fuel st
    else
      match if_expr_else fuel st with
      | .error e => .error e
      | .ok (else_case, st1) => .ok (([], else_case), st1)

/-- Parser.if_expr_elif of part_002. -/
def if_expr_elif : Nat → TokSt → PRes IfCases
  | 0, _ => .error .outOfFuel
  | fuel + 1, st => if_expr_cases fuel "elif" st

/-- Parser.if_expr_else of part_002. -/
def if_expr_else : Nat → TokSt → PRes (Option Node × Bool)
  | 0, _ => .error .outOfFuel
  | fuel + 1, st =>
    if kwIs st "else" then
      let st1 := adv st
      if typeIs st1 .COLON then
        let st2 := adv st1
        if isNewline st2 then
          match statements fuel (adv st2) with
          | .error e => .error e
          | .ok (stmts, st3) =>
            if kwIs st3 "end" then .ok ((some stmts, true), adv st3)
            else .error .invalidSyntax
        else
          match statement fuel st2 with
          | .error e => .error e
          | .ok (stmt, st3) => .ok ((some stmt, false), st3)
      else .error .invalidSyntax
    else .ok ((Option.none, false), st)

/-- Parser.for_expr of part_002. -/
def for_expr : Nat → TokSt → PRes Node
  | 0, _ => .error .outOfFuel
  | fuel + 1, st =>
    let st1 := adv st
    if ¬ typeIs st1 .IDENTIFIER then .error .invalidSyntax
    else
      let var_name := curStr st1
      let st2 := adv st1
      match
        (if typeIs st2 .EQUALS then
           match expr fuel (adv st2) with
           | .error e => .error e
           | .ok (e, st3) => .ok (some e, st3)
         else .ok (Option.none, st2) : PRes (Option Node))
      with
      | .error e => .error e
      | .ok (start_value, st3) =>
        if ¬ kwIs st3 "to" then .error .invalidSyntax
        else
          match expr fuel (adv st3) with
          | .error e => .error e
          | .ok (end_value, st4) =>
            match
              (if kwIs st4 "step" then
                 match expr fuel (adv st4) with
                 | .error e => .error e
                 | .ok (e, st5) => .ok (some e, st5)
               else .ok (Option.none, st4) : PRes (Option Node))
            with
            | .error e => .error e
            | .ok (step_value, st5) =>
              if ¬ typeIs st5 .COLON then .error .invalidSyntax
              else
                let st6 := adv st5
                if isNewline st6 then
                  match statements fuel (adv st6) with
                  | .error e => .error e
                  | .ok (body, st7) =>
                    if kwIs st7 "end" then
                      .ok (.ForNode var_name start_value end_value step_value body true, adv st7)
                    else .error .invalidSyntax
                else
                  match statement fuel st6 with
                  | .error e => .error e
                  | .ok (body, st7) =>
                    .ok (.ForNode var_name start_value end_value step_value body false, st7)

/-- Parser.foreach_expr of part_002. -/
def foreach_expr : Nat → TokSt → PRes Node
  | 0, _ => .error .outOfFuel
  | fuel + 1, st =>
    match prop fuel (adv st) with
    | .error e => .error e
    | .ok (list_node, st1) =>
      if ¬ kwIs st1 "as" then .error .invalidSyntax
      else
        let st2 := adv st1
        if ¬ typeIs st2 .IDENTIFIER then .error .invalidSyntax
        else
          let var_name := curStr st2
          let st3 := adv st2
          let (value_name, st4) :=
            if typeIs st3 .DOUBLE_ARROW then
              (some (curStr (adv st3)), adv (adv st3))
            else (Option.none, st3)
          if ¬ typeIs st4 .COLON then .error .invalidSyntax
          else
            let st5 := adv st4
            if isNewline st5 then
              match statements fuel (adv st5) with
              | .error e => .error e
              | .ok (body, st6) =>
                if kwIs st6 "end" then
                  .ok (.ForeachNode list_node
                        (if value_name.isSome then some var_name else Option.none)
                        (value_name.getD var_name) body true, adv st6)
                else .error .invalidSyntax
            else
              match statement fuel st5 with
              | .error e => .error e
              | .ok (body, st6) =>
                .ok (.ForeachNode list_node
                      (if value_name.isSome then some var_name else Option.none)
                      (value_name.getD var_name) body false, st6)

/-- Parser.while_expr of part_002. -/
def while_expr : Nat → TokSt → PRes Node
  | 0, _ => .error .outOfFuel
  | fuel + 1, st =>
    match expr fuel (adv st) with
    | .error e => .error e
    | .ok (condition, st1) =>
      if ¬ typeIs st1 .COLON then .error .invalidSyntax
      else
        let st2 := adv st1
        if isNewline st2 then
          match statements fuel (adv st2) with
          | .error e => .error e
          | .ok (body, st3) =>
            if kwIs st3 "end" then .ok (.WhileNode condition body true, adv st3)
            else .error .invalidSyntax
        else
          match statement fuel st2 with
          | .error e => .error e
          | .ok (body, st3) => .ok (.WhileNode condition body false, st3)

/-- Parser.func_expr of part_002. -/
def func_expr : Nat → TokSt → PRes Node
  | 0, _ => .error .outOfFuel
  | fuel + 1, st =>
    let st1 := adv st
    match
      (if typeIs st1 .IDENTIFIER then
         let st2 := adv st1
         if ¬ typeIs st2 .LPAREN then .error ParseErr.invalidSyntax
         else .ok (some (curStr st1), st2)
       else
         if ¬ typeIs st1 .LPAREN then .error ParseErr.invalidSyntax
         else .ok (Option.none, st1) : PRes (Option String))
    with
    | .error e => .error e
    | .ok (var_name, st2) =>
      let st3 := adv st2
      match
        (if typeIs st3 .IDENTIFIER then
           match funcArg fuel false ([], [], [], []) st3 with
           | .error e => .error e
           | .ok ((is_optional, lists), st4) =>
             match funcArgsLoop fuel is_optional lists st4 with
             | .error e => .error e
             | .ok ((_, lists), st5) =>
               if ¬ typeIs st5 .RPAREN then .error ParseErr.invalidSyntax
               else .ok (lists, st5)
         else
           if ¬ typeIs st3 .RPAREN then .error ParseErr.invalidSyntax
           else .ok (([], [], [], []), st3)
          : PRes (List String × List String × List String × List Node))
      with
      | .error e => .error e
      | .ok ((arg_names, mandatory_args, optional_args, default_values), st4) =>
        let st5 := adv st4
        if typeIs st5 .ARROW then
          match expr fuel (adv st5) with
          | .error e => .error e
          | .ok (node_to_return, st6) =>
            .ok (.FuncDefNode var_name arg_names mandatory_args optional_args
                  default_values node_to_return true, st6)
        else if ¬ typeIs st5 .COLON then .error .invalidSyntax
        else
          match statements fuel (adv st5) with
          | .error e => .error e
          | .ok (body, st6) =>
            if kwIs st6 "end" then
              .ok (.FuncDefNode var_name arg_names mandatory_args optional_args
                    default_values body false, adv st6)
            else .error .invalidSyntax

/-- The check_for_optional_args closure of `func_expr`: one argument
(current token is an IDENTIFIER). -/
def funcArg : Nat → Bool → (List String × List String × List String × List Node) → TokSt →
    PRes (Bool × (List String × List String × List String × List Node))
  | 0, _, _, _ => .error .outOfFuel
  | fuel + 1, is_optional, (arg_names, mandatory_args, optional_args, default_values), st =>
    let identifier := curStr st
    let arg_names := arg_names ++ [identifier]
    let st1 := adv st
    if typeIs st1 .QMARK then
      let optional_args := optional_args ++ [identifier]
      let st2 := adv st1
      if typeIs st2 .EQUALS then
        match expr fuel (adv st2) with
        | .error _ => .error .invalidSyntax
        | .ok (node_default_value, st3) =>
          .ok ((true, (arg_names, mandatory_args, optional_args,
                       default_values ++ [node_default_value])), st3)
      else
        .ok ((true, (arg_names, mandatory_args, optional_args,
                     default_values ++ [Node.NumberNode 0])), st2)
    else
      if is_optional then .error .invalidSyntax
      else
        .ok ((is_optional, (arg_names, mandatory_args ++ [identifier], optional_args,
                            default_values)), st1)

/-- The COMMA while loop of the argument list of `func_expr`. -/
def funcArgsLoop : Nat → Bool → (List String × List String × List String × List Node) → TokSt →
    PRes (Bool × (List String × List String × List String × List Node))
  | 0, _, _, _ => .error .outOfFuel
  | fuel + 1, is_optional, lists, st =>
    if typeIs st .COMMA then
      let st1 := adv st
      if ¬ typeIs st1 .IDENTIFIER then .error .invalidSyntax
      else
        match funcArg fuel is_optional lists st1 with
        | .error e => .error e
        | .ok ((is_optional, lists), st2) => funcArgsLoop fuel is_optional lists st2
    else .ok ((is_optional, lists), st)

end

/-- Parser.parse of part_002: null token stream parses to null; after
`statements`, anything left but EOF is an error. -/
def parse (fuel : Nat) (st : TokSt) : Except ParseErr (Option Node) :=
  if st = [] then .ok Option.none
  else
    match statements fuel st with
    | .error e => .error e
    | .ok (result, st1) =>
      if st1 = [] ∨ typeIs st1 .EOF then .ok (some result)
      else .error .invalidSyntax

end Parser2

end VersaJS

namespace VersaJS

/-!
## Token builders and small predicates used by the claim theorems
-/

/-- A KEYWORD token. -/
def kwTok (s : String) : Token := ⟨.KEYWORD, .str s⟩

/-- An IDENTIFIER token. -/
def identTok (s : String) : Token := ⟨.IDENTIFIER, .str s⟩

/-- A NUMBER token. -/
def numTok (q : ℚ) : Token := ⟨.NUMBER, .num q⟩

/-- A STRING token. -/
def strTok (s : String) : Token := ⟨.STRING, .str s⟩

/-- An operator or punctuation token (no payload). -/
def opTok (tt : TokenType) : Token := ⟨tt, .null⟩

/-- Whether a value is of String kind. -/
def isStr : Value → Bool
  | .str _ => true
  | _ => false

/-- When no map in the whole chain binds a name, `get` returns null.
Helper for the C9 theorem. -/
theorem SymbolTable.get_eq_none_of_unbound :
    ∀ (st : SymbolTable) (name : String),
      (∀ m ∈ st.symbols :: st.parentMaps, mapGet m name = Option.none) →
      st.get name = Option.none := by
  intro st
  induction st with
  | root syms =>
    intro name h
    exact h syms (by simp [SymbolTable.symbols, SymbolTable.parentMaps])
  | child syms p ih =>
    intro name h
    have h1 : mapGet syms name = Option.none :=
      h syms (by simp [SymbolTable.symbols, SymbolTable.parentMaps])
    have h2 : ∀ m ∈ p.symbols :: p.parentMaps, mapGet m name = Option.none := by
      intro m hm
      exact h m (by
        simp only [SymbolTable.symbols, SymbolTable.parentMaps, List.mem_cons] at hm ⊢
        tauto)
    simp only [SymbolTable.get, h1]
    exact ih name h2

/-!
## The claims
-/

/-- C1, counterexample: None is NOT a two-sided identity for addition
when the other operand is a List.  Evaluating the modelled addition at
the input pinned by the AddNode tests, `[0] + none` returns `[0, none]`
(None appended as a new trailing element), which differs from `[0]`, so
`x + None = x` fails for the List `x = [0]`. -/
theorem C1_counterexample :
    add (.list [.number 0]) .none = .ok (.list [.number 0, .none]) ∧
    Value.list [.number 0, .none] ≠ Value.list [.number 0] :=
  ⟨rfl, by simp⟩

/-- C1, amended: None is a two-sided identity for addition on Number and
String operands, and `none + none` yields Number 0; but a List operand
absorbs None as a new trailing element on either side
(`l + none = none + l = l ++ [none]`), so the identity law excludes
Lists (and Dictionaries). -/
theorem C1_none_addition_amended :
    ∀ (q : ℚ) (s : String) (l : List Value),
      add (.number q) .none = .ok (.number q) ∧
      add .none (.number q) = .ok (.number q) ∧
      add (.str s) .none = .ok (.str s) ∧
      add .none (.str s) = .ok (.str s) ∧
      add .none .none = .ok (.number 0) ∧
      add (.list l) .none = .ok (.list (l ++ [.none])) ∧
      add .none (.list l) = .ok (.list (l ++ [.none])) :=
  fun _ _ _ => ⟨rfl, rfl, rfl, rfl, rfl, rfl, rfl⟩

/-- C2, counterexample: a String added to a List does NOT yield a String:
evaluating the modelled addition at the input pinned by the AddNode
tests, `"string" + [0]` yields the List `[0, "string"]`, not a String. -/
theorem C2_counterexample :
    add (.str "string") (.list [.number 0]) = .ok (.list [.number 0, .str "string"]) ∧
    isStr (.list [.number 0, .str "string"]) = false :=
  ⟨rfl, rfl⟩

/-- C2, amended: String + Number/String concatenates using the string
conversion of each operand, and String + None returns the String
unchanged; but when either operand is a List the List rule wins and the
String is appended as a new trailing element of the List (the result is
a List, not a String); String + Dictionary is an illegal operation. -/
theorem C2_string_addition_amended :
    ∀ (s t : String) (n : ℚ) (l : List Value) (d : List (String × Value)),
      add (.str s) (.str t) = .ok (.str (s ++ t)) ∧
      add (.str s) (.number n) = .ok (.str (s ++ numToString n)) ∧
      add (.number n) (.str s) = .ok (.str (numToString n ++ s)) ∧
      add (.str s) .none = .ok (.str s) ∧
      add (.str s) (.list l) = .ok (.list (l ++ [.str s])) ∧
      add (.list l) (.str s) = .ok (.list (l ++ [.str s])) ∧
      add (.str s) (.dict d) = .error .illegalOperation :=
  fun _ _ _ _ _ => ⟨rfl, rfl, rfl, rfl, rfl, rfl, rfl⟩

/-- C3, counterexample: the parsers do NOT reject a re-declaration of a
reserved constant via declaration syntax: the token stream of
`var none = 1` parses successfully (to a VarAssignNode) in both the
part_001 parser and the part_002 parser, with no syntax error. -/
theorem C3_counterexample :
    Parser1.parse 50 [kwTok "var", identTok "none", opTok .EQUALS, numTok 1, opTok .EOF] =
      .ok (some (.ListNode [.VarAssignNode "none" (.NumberNode 1)])) ∧
    Parser2.parse 50 [kwTok "var", identTok "none", opTok .EQUALS, numTok 1, opTok .EOF] =
      .ok (some (.ListNode [.VarAssignNode "none" (.NumberNode 1)])) :=
  ⟨rfl, rfl⟩

/-- C3, amended: the enforcement is the other way round from the claim.
For every reserved constant name, the `var name = ...` declaration
parses WITHOUT error in both parsers (no reserved-name check on the
declaration path); the bare-identifier reassignment `name = ...` is
rejected with a syntax error by the part_001 parser (the CONSTANTS check
in its factor method), while the part_002 parser accepts it too (its
atom method has no such check), which is the path-dependent gap. -/
theorem C3_reserved_constant_paths (name : String) (h : name ∈ CONSTANTS_keys) :
    Parser1.parse 50 [kwTok "var", identTok name, opTok .EQUALS, numTok 1, opTok .EOF] =
      .ok (some (.ListNode [.VarAssignNode name (.NumberNode 1)])) ∧
    Parser1.parse 50 [identTok name, opTok .EQUALS, numTok 1, opTok .EOF] =
      .error .invalidSyntax ∧
    Parser2.parse 50 [kwTok "var", identTok name, opTok .EQUALS, numTok 1, opTok .EOF] =
      .ok (some (.ListNode [.VarAssignNode name (.NumberNode 1)])) ∧
    Parser2.parse 50 [identTok name, opTok .EQUALS, numTok 1, opTok .EOF] =
      .ok (some (.ListNode [.VarModifyNode name (.NumberNode 1)])) := by
  simp only [CONSTANTS_keys, CONSTANTS, List.map_cons, List.map_nil, List.mem_cons,
    List.not_mem_nil, or_false] at h
  rcases h with rfl | rfl | rfl | rfl | rfl | rfl
  all_goals exact ⟨rfl, rfl, rfl, rfl⟩

/-- C3, witness: the amended statement applied at the reserved name
`none`. -/
theorem C3_witness :
    Parser1.parse 50 [kwTok "var", identTok "none", opTok .EQUALS, numTok 1, opTok .EOF] =
      .ok (some (.ListNode [.VarAssignNode "none" (.NumberNode 1)])) ∧
    Parser1.parse 50 [identTok "none", opTok .EQUALS, numTok 1, opTok .EOF] =
      .error .invalidSyntax ∧
    Parser2.parse 50 [identTok "none", opTok .EQUALS, numTok 1, opTok .EOF] =
      .ok (some (.ListNode [.VarModifyNode "none" (.NumberNode 1)])) :=
  ⟨(C3_reserved_constant_paths "none" (by simp [CONSTANTS_keys, CONSTANTS])).1,
   (C3_reserved_constant_paths "none" (by simp [CONSTANTS_keys, CONSTANTS])).2.1,
   (C3_reserved_constant_paths "none" (by simp [CONSTANTS_keys, CONSTANTS])).2.2.2⟩

/-- C4, counterexample: SymbolTable.set never changes any entry of any
ancestor map: there is NO table, name and value for which set modifies
the parent chain of maps (set writes only the local map of its
receiver). -/
theorem C4_counterexample :
    ¬ ∃ (st : SymbolTable) (name : String) (v : Value),
        (st.set name v).parentMaps ≠ st.parentMaps := by
  push_neg
  intro st name v
  cases st <;> rfl

/-- C4, amended: SymbolTable.set writes only the receiving table its own
local map (update-or-append), leaving the maps of every ancestor scope
unchanged; a set on a child table of a name bound in an ancestor SHADOWS
the ancestor binding (the child then resolves the new value while the
ancestor still holds the old one) rather than mutating it.  Mutating an
ancestor binding requires invoking set on that ancestor table itself. -/
theorem C4_set_writes_only_local :
    (∀ (st : SymbolTable) (name : String) (v : Value),
      (st.set name v).symbols = mapSet st.symbols name v ∧
      (st.set name v).parentMaps = st.parentMaps) ∧
    ((SymbolTable.child [] (SymbolTable.root [("x", Value.number 1)])).set "x"
        (Value.number 2)).get "x" = some (Value.number 2) ∧
    ((SymbolTable.child [] (SymbolTable.root [("x", Value.number 1)])).set "x"
        (Value.number 2)).parentMaps = [[("x", Value.number 1)]] ∧
    (SymbolTable.root [("x", Value.number 1)]).get "x" = some (Value.number 1) :=
  ⟨fun st _ _ => by cases st <;> exact ⟨rfl, rfl⟩, rfl, rfl, rfl⟩

/-- C5: division and modulo on a Number and None (either side, or both
None) or with a zero divisor fail with a DivisionByZero-kind
RuntimeError, and they succeed exactly when both operands are Numbers
and the divisor is nonzero. -/
theorem C5_division_modulo_errors :
    (∀ a : ℚ,
      divide (.number a) .none = .error .divisionByZero ∧
      divide .none (.number a) = .error .divisionByZero ∧
      divide .none .none = .error .divisionByZero ∧
      divide (.number a) (.number 0) = .error .divisionByZero ∧
      modulo (.number a) .none = .error .divisionByZero ∧
      modulo .none (.number a) = .error .divisionByZero ∧
      modulo .none .none = .error .divisionByZero ∧
      modulo (.number a) (.number 0) = .error .divisionByZero) ∧
    (∀ v w : Value,
      ((∃ r, divide v w = .ok r) ↔ ∃ x y, v = .number x ∧ w = .number y ∧ y ≠ 0) ∧
      ((∃ r, modulo v w = .ok r) ↔ ∃ x y, v = .number x ∧ w = .number y ∧ y ≠ 0)) := by
  constructor
  · intro a
    exact ⟨rfl, rfl, rfl, by simp [divide], rfl, rfl, rfl, by simp [modulo]⟩
  · intro v w
    constructor
    · cases v <;> cases w <;> simp [divide]
      case number.number x y =>
        by_cases hy : y = 0 <;> simp [hy]
    · cases v <;> cases w <;> simp [modulo]
      case number.number x y =>
        by_cases hy : y = 0 <;> simp [hy]

/-- C6: the power operator yields Number 1 whenever an operand is None
(base, exponent or both); on two Numbers it is standard exponentiation
(stated for integer exponents, the domain of the rational model); and a
List operand on either side distributes element-wise, with the Number
operand acting as the exponent in both orders, so that
`[5, 10] ^ 2 = [25, 100]` and also `2 ^ [5, 10] = [25, 100]`, as the
PowerNode tests assert. -/
theorem C6_power_semantics :
    (∀ x : ℚ,
      power (.number x) .none = .ok (.number 1) ∧
      power .none (.number x) = .ok (.number 1)) ∧
    power .none .none = .ok (.number 1) ∧
    (∀ (a : ℚ) (b : ℤ),
      power (.number a) (.number (b : ℚ)) = .ok (.number (ratPow a b))) ∧
    power (.number 10) (.number 2) = .ok (.number 100) ∧
    (∀ (l : List Value) (b : ℤ),
      power (.list l) (.number (b : ℚ)) = (powList b l).map Value.list ∧
      power (.number (b : ℚ)) (.list l) = (powList b l).map Value.list) ∧
    power (.list [.number 5, .number 10]) (.number 2) =
      .ok (.list [.number 25, .number 100]) ∧
    power (.number 2) (.list [.number 5, .number 10]) =
      .ok (.list [.number 25, .number 100]) := by
  refine ⟨fun x => ⟨rfl, rfl⟩, rfl, ?_, ?_, ?_, ?_, ?_⟩
  · intro a b
    simp [power, Rat.den_intCast, Rat.num_intCast]
  · norm_num [power, ratPow, Int.toNat]
  · intro l b
    constructor
    · simp only [power, Rat.den_intCast, Rat.num_intCast, if_pos]
      cases powList b l <;> simp [Except.map]
    · simp only [power, Rat.den_intCast, Rat.num_intCast, if_pos]
      cases powList b l <;> simp [Except.map]
  · norm_num [power, powList, ratPow, Int.toNat]
  · norm_num [power, powList, ratPow, Int.toNat]

/-- C7: equality returns Number 1 or Number 0 (never anything else), a
numeric String compares numerically against a Number on either side
(`"5" == 5` and `5 == "5"` give 1), a non-numeric String never equals
None (`"str" == none` gives 0), None equals itself and the numeric zero
on either side, Lists compare by matching lengths and pairwise element
equality, and Dictionaries compare by key-set plus per-key value
equality. -/
theorem C7_equals_semantics :
    equals (.str "5") (.number 5) = .number 1 ∧
    equals (.number 5) (.str "5") = .number 1 ∧
    equals (.str "str") .none = .number 0 ∧
    equals .none .none = .number 1 ∧
    equals .none (.number 0) = .number 1 ∧
    equals (.number 0) .none = .number 1 ∧
    (∀ a b : Value, equals a b = .number 1 ∨ equals a b = .number 0) ∧
    (∀ a b : List Value,
      eqValue (.list a) (.list b) = (a.length == b.length && eqListPairwise a b)) ∧
    (∀ (x y : Value) (xs ys : List Value),
      eqListPairwise (x :: xs) (y :: ys) = (eqValue x y && eqListPairwise xs ys)) ∧
    (∀ d e : List (String × Value),
      eqValue (.dict d) (.dict e) = (sameKeySet d e && eqDictValues d e)) ∧
    equals (.dict [("age", .number 17)]) (.dict [("age", .number 17)]) = .number 1 ∧
    equals (.list [.number 5, .number 6]) (.list [.number 5, .number 6]) = .number 1 := by
  refine ⟨rfl, rfl, rfl, rfl, rfl, rfl, ?_, ?_, ?_, ?_, rfl, rfl⟩
  · intro a b
    unfold equals
    by_cases h : eqValue a b <;> simp [h]
  · intro a b
    rw [eqValue]
  · intro x y xs ys
    rw [eqListPairwise]
  · intro d e
    rw [eqValue]

/-- C8: in a part_002 dictionary literal, an element that is a plain
identifier not followed by a colon desugars to key StringNode(name) and
value VarAccessNode(name), whether it is the first element or follows a
comma; an identifier key followed by an explicit colon is a syntax
error, and a key that is neither a string nor an identifier (here a
number) is a syntax error. -/
theorem C8_dict_identifier_sugar :
    ∀ name : String,
      Parser2.parse 50 [opTok .LBRACK, identTok name, opTok .RBRACK, opTok .EOF] =
        .ok (some (.ListNode [.DictionnaryNode
          [.DictionnaryElementNode (.StringNode name) (.VarAccessNode name)]])) ∧
      Parser2.parse 50 [opTok .LBRACK, identTok name, opTok .COMMA, strTok "k",
          opTok .COLON, numTok 1, opTok .RBRACK, opTok .EOF] =
        .ok (some (.ListNode [.DictionnaryNode
          [.DictionnaryElementNode (.StringNode name) (.VarAccessNode name),
           .DictionnaryElementNode (.StringNode "k") (.NumberNode 1)]])) ∧
      Parser2.parse 50 [opTok .LBRACK, strTok "k", opTok .COLON, numTok 1,
          opTok .COMMA, identTok name, opTok .RBRACK, opTok .EOF] =
        .ok (some (.ListNode [.DictionnaryNode
          [.DictionnaryElementNode (.StringNode "k") (.NumberNode 1),
           .DictionnaryElementNode (.StringNode name) (.VarAccessNode name)]])) ∧
      Parser2.parse 50 [opTok .LBRACK, identTok name, opTok .COLON, numTok 17,
          opTok .RBRACK, opTok .EOF] = .error .invalidSyntax ∧
      Parser2.parse 50 [opTok .LBRACK, numTok 5, opTok .COLON, numTok 17,
          opTok .RBRACK, opTok .EOF] = .error .invalidSyntax := by
  intro name
  refine ⟨?_, ?_, ?_, ?_, rfl⟩
  all_goals
    simp [Parser2.parse, Parser2.statements, Parser2.statementsLoop, Parser2.statement,
      Parser2.expr, Parser2.comp_expr, Parser2.arith_expr, Parser2.arithLoop,
      Parser2.term, Parser2.termLoop, Parser2.factor, Parser2.prop, Parser2.propLoop,
      Parser2.call, Parser2.callLoop, Parser2.atom, Parser2.dict_expr,
      Parser2.read_element, Parser2.dictLoop,
      countIsNewlines, countINC, countDEC, skipNEWLINEs, isNewline,
      typeIs, kwIs, adv, curStr, curNum, identTok, opTok, strTok, numTok,
      Token.matchesKw, Token.strValue, Token.numValue]

/-- C9: SymbolTable.get returns the locally bound value when the local
map binds the name, otherwise delegates to the parent chain and returns
null when no scope in the chain binds the name; doesExist consults only
the local map, so on a child scope that does not bind a name locally,
doesExist is false while get still returns the value inherited from the
ancestor. -/
theorem C9_get_doesExist_semantics :
    ∀ (syms : List (String × Value)) (p : SymbolTable) (name : String) (v : Value),
      ((SymbolTable.child syms p).doesExist name = (mapGet syms name).isSome) ∧
      (mapGet syms name = some v → (SymbolTable.child syms p).get name = some v) ∧
      (mapGet syms name = Option.none → (SymbolTable.child syms p).get name = p.get name) ∧
      ((SymbolTable.root syms).get name = mapGet syms name) ∧
      (∀ st : SymbolTable,
        (∀ m ∈ st.symbols :: st.parentMaps, mapGet m name = Option.none) →
        st.get name = Option.none) ∧
      ((SymbolTable.child [] (SymbolTable.root [("x", Value.number 1)])).doesExist "x"
          = false ∧
       (SymbolTable.child [] (SymbolTable.root [("x", Value.number 1)])).get "x"
          = some (Value.number 1)) := by
  intro syms p name v
  refine ⟨rfl, ?_, ?_, rfl, ?_, rfl, rfl⟩
  · intro h
    simp [SymbolTable.get, h]
  · intro h
    simp [SymbolTable.get, h]
  · intro st
    exact SymbolTable.get_eq_none_of_unbound st name

/-- C9, witness: the statement applied at a concrete chain, with both
hypotheses discharged at concrete maps. -/
theorem C9_witness :
    (SymbolTable.child [("y", Value.number 2)] (SymbolTable.root [])).get "y"
      = some (Value.number 2) ∧
    (SymbolTable.child [("z", Value.number 3)] (SymbolTable.root [("w", Value.number 4)])).get "w"
      = (SymbolTable.root [("w", Value.number 4)]).get "w" ∧
    (SymbolTable.child [] (SymbolTable.root [("x", Value.number 1)])).doesExist "x" = false :=
  ⟨(C9_get_doesExist_semantics [("y", Value.number 2)] (SymbolTable.root [])
      "y" (Value.number 2)).2.1 rfl,
   (C9_get_doesExist_semantics [("z", Value.number 3)]
      (SymbolTable.root [("w", Value.number 4)]) "w" (Value.number 0)).2.2.1 rfl,
   (C9_get_doesExist_semantics [] (SymbolTable.root [("x", Value.number 1)])
      "x" (Value.number 0)).2.2.2.2.2.1⟩

/-- C10: under multiplication None behaves as the number zero rather
than as a neutral element: a Number times None, None times a Number and
None times None all evaluate to Number 0, while two Numbers multiply
arithmetically. -/
theorem C10_multiply_none_zero :
    ∀ x : ℚ,
      multiply (.number x) .none = .ok (.number 0) ∧
      multiply .none (.number x) = .ok (.number 0) ∧
      multiply .none .none = .ok (.number 0) ∧
      (∀ y : ℚ, multiply (.number x) (.number y) = .ok (.number (x * y))) :=
  fun _ => ⟨rfl, rfl, rfl, fun _ => rfl⟩

end VersaJS
